import Mathlib

/-!
Verification development for the small-biz-bookkeeping receipt-extraction core.

The Python sources (`app/main.py`, `app/services/parser_service.py`,
`app/services/categorizer_service.py`, `app/categories/rules.py`,
`app/categories/engine.py`, `app/categories/mappings.py`) are shallowly
embedded below.  Python floats are modelled as exact rationals (ℚ); all the
constants appearing in the code are decimal fractions, so every arithmetic
step performed by the code is exact on this fragment.  Python strings are
modelled as `List Char`; the ASCII fragment is the relevant one, since the
parser's `_normalize_text` strips the input down to printable ASCII.
Regex-driven scans are embedded as explicit character-list scanners that
implement the leftmost-match/backtracking semantics of each concrete pattern
used by the code (each scanner's doc comment names its pattern).

Batteries marks `Rat.add`/`Rat.sub`/`Rat.mul`/`Rat.ofScientific` as
irreducible, which blocks kernel evaluation; so the embedding computes with
`qadd`, `qsub`, `qmul`, `qdiv`, `qneg` (defined through `Rat.divInt`, which
does reduce).  The bridge theorems `qadd_eq` … `qneg_eq` at the start of the
theorem section prove these agree with the ordinary field operations on ℚ.
-/

set_option maxRecDepth 100000

/-! ## Exact rational arithmetic that evaluates in the kernel -/

/-- Decimal constant with two fraction digits: `qc 84` is the Python literal `0.84`. -/
def qc (n : ℤ) : ℚ := Rat.divInt n 100

/-- Addition on ℚ, computed through `Rat.divInt` so that the kernel can reduce it. -/
def qadd (a b : ℚ) : ℚ := Rat.divInt (a.num * b.den + b.num * a.den) (a.den * b.den)

/-- Subtraction on ℚ through `Rat.divInt`. -/
def qsub (a b : ℚ) : ℚ := Rat.divInt (a.num * b.den - b.num * a.den) (a.den * b.den)

/-- Multiplication on ℚ through `Rat.divInt`. -/
def qmul (a b : ℚ) : ℚ := Rat.divInt (a.num * b.num) (a.den * b.den)

/-- Division on ℚ through `Rat.divInt` (0 when the divisor is 0, as in Mathlib). -/
def qdiv (a b : ℚ) : ℚ := Rat.divInt (a.num * b.den) (a.den * b.num)

/-- Negation on ℚ through `Rat.divInt`. -/
def qneg (a : ℚ) : ℚ := Rat.divInt (-a.num) a.den

/-- Python `abs` on our rational model. -/
def qabs (a : ℚ) : ℚ := if a < 0 then qneg a else a

/-- Python `min` on two floats. -/
def qmin (a b : ℚ) : ℚ := if a ≤ b then a else b

/-- Python `max` on two floats. -/
def qmax (a b : ℚ) : ℚ := if a ≤ b then b else a

/-- Floor of a rational as an integer (`Int.fdiv` is floor division). -/
def qfloor (a : ℚ) : ℤ := a.num.fdiv a.den

/-- Python 3 `round()` on an exact value: round half to even (banker's rounding). -/
def roundHalfEven (a : ℚ) : ℤ :=
  let f := qfloor a
  let r := qsub a (f : ℚ)
  if r < qc 50 then f
  else if r > qc 50 then f + 1
  else if f % 2 = 0 then f else f + 1

/-- Python `round(x, n)` for `n` fraction digits (exact-value model). -/
def pyRound (a : ℚ) (n : ℕ) : ℚ :=
  Rat.divInt (roundHalfEven (qmul a ((10 : ℚ) ^ n))) ((10 : ℕ) ^ n)

/-- parser_service `_clamp01`. -/
def clamp01 (x : ℚ) : ℚ := if x < 0 then 0 else if x > 1 then 1 else x

/-- parser_service `_to_conf_100`: `round(_clamp01(x) * 100.0, 1)`. -/
def toConf100 (x : ℚ) : ℚ := pyRound (qmul (clamp01 x) 100) 1

/-! ## Text model: Python `str` as `List Char` (ASCII fragment) -/

abbrev Chars := List Char

/-- ASCII decimal digit (`\d` of Python `re` on this fragment). -/
def isDigitC (c : Char) : Bool := decide ('0' ≤ c ∧ c ≤ '9')

/-- ASCII letter. -/
def isAlphaC (c : Char) : Bool :=
  decide (('a' ≤ c ∧ c ≤ 'z') ∨ ('A' ≤ c ∧ c ≤ 'Z'))

/-- Python `re` word character `\w` (ASCII fragment): letter, digit or underscore. -/
def isWordC (c : Char) : Bool := isDigitC c || isAlphaC c || c = '_'

/-- Python `str` whitespace / `re` `\s` (ASCII fragment). -/
def isSpaceC (c : Char) : Bool :=
  c = ' ' || c = '\t' || c = '\n' || c = '\x0d' || c = '\x0b' || c = '\x0c'

/-- Python `str.lower()` on the ASCII fragment. -/
def lowerC (c : Char) : Char :=
  if 'A' ≤ c ∧ c ≤ 'Z' then Char.ofNat (c.toNat + 32) else c

/-- Python `str.upper()` on the ASCII fragment. -/
def upperC (c : Char) : Char :=
  if 'a' ≤ c ∧ c ≤ 'z' then Char.ofNat (c.toNat - 32) else c

/-- Lowercase a whole string. -/
def lowerS (s : Chars) : Chars := s.map lowerC

/-- Uppercase a whole string. -/
def upperS (s : Chars) : Chars := s.map upperC

/-- Python `str.strip()`. -/
def stripS (s : Chars) : Chars :=
  (s.dropWhile isSpaceC).reverse.dropWhile isSpaceC |>.reverse

/-- Python substring test `needle in hay` (empty needle is contained everywhere). -/
def isSubstr (needle hay : Chars) : Bool :=
  match hay with
  | [] => needle.isEmpty
  | _ :: t => needle.isPrefixOf hay || isSubstr needle t

/-- Python `any(n in hay for n in needles)`. -/
def hasAnySub (hay : Chars) (needles : List Chars) : Bool :=
  needles.any (fun n => isSubstr n hay)

/-- Python `str.replace(old, new)` for single characters. -/
def replaceC (s : Chars) (old new : Char) : Chars :=
  s.map (fun c => if c = old then new else c)

/-- Python `"sep".join(parts)` on char lists. -/
def joinSep (sep : Chars) (parts : List Chars) : Chars :=
  match parts with
  | [] => []
  | [p] => p
  | p :: rest => p ++ sep ++ joinSep sep rest

/-- Numeric value of a digit string (`int(s)` for a string of ASCII digits). -/
def digitsVal (s : Chars) : ℕ :=
  s.foldl (fun a c => 10 * a + (c.toNat - '0'.toNat)) 0

/-- Leading run of digits of a string, together with the rest. -/
def digitSpan : Chars → Chars × Chars
  | [] => ([], [])
  | c :: t =>
    if isDigitC c then
      let (r, rest) := digitSpan t
      (c :: r, rest)
    else ([], c :: t)

/-- Leading run of `re` whitespace, together with the rest. -/
def spaceSpan : Chars → Chars × Chars
  | [] => ([], [])
  | c :: t =>
    if isSpaceC c then
      let (r, rest) := spaceSpan t
      (c :: r, rest)
    else ([], c :: t)

/-- Decimal-string rendering of a natural number. -/
def natDigits (n : ℕ) : Chars :=
  (Nat.toDigits 10 n)

/-- Python `"%d" % z` for an integer. -/
def intStr (z : ℤ) : Chars :=
  if z < 0 then '-' :: natDigits z.natAbs else natDigits z.natAbs

/-- Python `"{:.2f}".format(q)` for an exact multiple of 0.01 (the only values
the embedded code formats this way). -/
def fmt2f (q : ℚ) : Chars :=
  let cents : ℤ := roundHalfEven (qmul q 100)
  let sign : Chars := if cents < 0 then ['-'] else []
  let a := cents.natAbs
  sign ++ natDigits (a / 100) ++ ['.'] ++
    (if a % 100 < 10 then ['0'] else []) ++ natDigits (a % 100)

/-- Zero-padded numeral of fixed width (used for ISO dates). -/
def padNat (w : ℕ) (n : ℕ) : Chars :=
  let d := natDigits n
  List.replicate (w - d.length) '0' ++ d


/-! ## Generic scanners (Python `re` on the concrete patterns used by the code) -/

/-- Python `re.finditer` driver: `matchAt prev suffix` attempts a match at the
current position, given the previous character (for look-behind assertions),
and returns a payload plus the length of text consumed.  Matches are
non-overlapping: after a match of length `L ≥ 1` scanning resumes right after
it, otherwise the scan advances one character — exactly `finditer`'s policy.
The `fuel` argument only makes the recursion structural (so that the kernel
can evaluate it); every step consumes at least one character, so any fuel
≥ the string length gives the untruncated scan (`reFindIter` passes the
string length). -/
def reFindIterAux (matchAt : Option Char → Chars → Option (α × ℕ)) :
    ℕ → Option Char → ℕ → Chars → List (α × ℕ)
  | 0, _, _, _ => []
  | _, _, _, [] => []
  | fuel + 1, prev, i, c :: t =>
    match matchAt prev (c :: t) with
    | some (m, L) =>
      if L ≤ 1 then
        (m, i) :: reFindIterAux matchAt fuel (some c) (i + 1) t
      else
        (m, i) :: reFindIterAux matchAt fuel ((c :: t).drop (L - 1)).head? (i + L) (t.drop (L - 1))
    | none => reFindIterAux matchAt fuel (some c) (i + 1) t

/-- Scan a whole string with a pattern matcher (see `reFindIterAux`). -/
def reFindIter (matchAt : Option Char → Chars → Option (α × ℕ)) (s : Chars) :
    List (α × ℕ) :=
  reFindIterAux matchAt s.length Option.none 0 s

/-- All maximal digit runs of a string, reported as
(character before the run, the run, character after the run, start index). -/
def digitRunsAux : ℕ → Option Char → Option (ℕ × Chars × Option Char) →
    Chars → List (Option Char × Chars × Option Char × ℕ)
  | _, _, cur, [] =>
    match cur with
    | some (st, racc, pb) => [(pb, racc.reverse, none, st)]
    | none => []
  | i, prev, cur, c :: t =>
    if isDigitC c then
      match cur with
      | some (st, racc, pb) => digitRunsAux (i + 1) (some c) (some (st, c :: racc, pb)) t
      | none => digitRunsAux (i + 1) (some c) (some (i, [c], prev)) t
    else
      match cur with
      | some (st, racc, pb) => (pb, racc.reverse, some c, st) :: digitRunsAux (i + 1) (some c) none t
      | none => digitRunsAux (i + 1) (some c) none t

/-- Maximal digit runs of a string (see `digitRunsAux`). -/
def digitRuns (s : Chars) : List (Option Char × Chars × Option Char × ℕ) :=
  digitRunsAux 0 none none s

/-! ## Dynamic Python values (for `Any`-typed parameters in `app/main.py`) -/

/-- A dynamically typed Python value as far as `_coerce_money_float` inspects
one: `None`, a number (`int`/`float`, exact model), a string, or any other
object. -/
inductive PyVal where
  | none
  | num (q : ℚ)
  | str (s : Chars)
  | other
deriving DecidableEq

/-- Python truthiness of an optional string (`None` and `""` are falsy). -/
def strTruthy : Option Chars → Bool
  | Option.none => false
  | Option.some s => !s.isEmpty

/-! ## `app/schemas.py` — the normalized record surface -/

/-- `ReceiptNormalized` (app/schemas.py): the canonical record the quality
gate and the totals-only fix operate on.  Confidences are floats in the
schema, `total`/`tax` are `Optional[float]`, the name fields `Optional[str]`. -/
structure Normalized where
  vendor : Option Chars
  vendor_confidence : ℚ
  vendor_reasoning : Chars
  vendor_source : Option Chars
  date : Option Chars
  date_confidence : ℚ
  date_reasoning : Chars
  total : Option ℚ
  total_confidence : ℚ
  total_reasoning : Chars
  tax : Option ℚ
  category : Option Chars
  category_confidence : ℚ
  category_reasoning : Chars
  explanation : Option Chars
  business_type : Option Chars
  business_state : Option Chars
  flags : List Chars
  needs_review : Bool
deriving DecidableEq

/-! ## `app/main.py` — `_compute_flags` (quality/review gate) -/

/-- Keep the first occurrence of each flag (`seen` set + `deduped` list loop
at the end of `_compute_flags`). -/
def dedupKeepFirst : List Chars → List Chars → List Chars
  | _, [] => []
  | seen, f :: t =>
    if seen.contains f then dedupKeepFirst seen t
    else f :: dedupKeepFirst (f :: seen) t

/-- The flag-collection body of `_compute_flags` (lines 500–592): every flag
appended in source order, plus the intermediate local `needs_review`
assignments modelled by the `nr?` accumulator. -/
def computeFlagsAux (ocrStatus : Chars) (n : Normalized) (parsedFlags : Option (List Chars)) :
    List Chars × Option Bool :=
  -- Sanity flags: totals & tax (both must be numeric)
  let (flags, nr?) :=
    match n.total, n.tax with
    | some nTotal, some nTax =>
      let flags := if nTax < 0 then [("TAX_NEGATIVE".data : Chars)] else []
      let (flags, nr?) :=
        if nTax > nTotal then (flags ++ ["TAX_GT_TOTAL".data], Option.some true)
        else (flags, (Option.none : Option Bool))
      if nTotal > 0 ∧ qdiv nTax nTotal > qc 25 then
        (flags ++ ["TAX_IMPLAUSIBLE_RATE".data], Option.some true)
      else (flags, nr?)
    | _, _ => ([], Option.none)
  -- OCR status flags: only hard failures
  let s := lowerS (stripS ocrStatus)
  let flags :=
    if !s.isEmpty ∧ s ≠ "success".data ∧ s ≠ "ok".data then
      if s = "low_confidence".data ∨ s = "low confidence".data then flags
      else flags ++ ["OCR_".data ++ replaceC (upperS s) ' ' '_']
    else flags
  -- Confidence-based review rules
  let totalReason := lowerS n.total_reasoning
  let (flags, nr?) :=
    if n.total_confidence < 80 then (flags ++ ["LOW_TOTAL_CONFIDENCE".data], Option.some true)
    else (flags, nr?)
  let (flags, nr?) :=
    if hasAnySub totalReason ["unlabeled".data, "bad context".data, "weak label match".data] then
      (flags ++ ["TOTAL_CONTEXT_WEAK".data], Option.some true)
    else (flags, nr?)
  let (flags, nr?) :=
    if n.date_confidence < 70 then (flags ++ ["LOW_DATE_CONFIDENCE".data], Option.some true)
    else (flags, nr?)
  let (flags, nr?) :=
    if n.vendor_confidence < 70 then (flags ++ ["LOW_VENDOR_CONFIDENCE".data], Option.some true)
    else (flags, nr?)
  let (flags, nr?) :=
    if n.tax = Option.none ∧
        (flags.contains "LOW_TOTAL_CONFIDENCE".data ∨ flags.contains "TOTAL_CONTEXT_WEAK".data) then
      (flags ++ ["TAX_MISSING_REVIEW".data], Option.some true)
    else (flags, nr?)
  -- Missing required-ish fields
  let flags := if !strTruthy n.vendor then flags ++ ["MISSING_VENDOR".data] else flags
  let flags := if !strTruthy n.date then flags ++ ["MISSING_DATE".data] else flags
  let flags := if n.total = Option.none then flags ++ ["MISSING_TOTAL".data] else flags
  let flags := if !strTruthy n.category then flags ++ ["MISSING_CATEGORY".data] else flags
  -- Carry parser flags forward (normalized style)
  let flags :=
    match parsedFlags with
    | Option.some pf =>
      flags ++ (pf.filterMap fun f => if (stripS f).isEmpty then Option.none
                                      else Option.some (upperS (stripS f)))
    | Option.none => flags
  (flags, nr?)

/-- `_compute_flags(ocr_status, normalized, parsed)` from `app/main.py`
(lines 494–603).  `parsedFlags` models `getattr(parsed, "flags", None)`
(`None` when the attribute is not a list).  The flags are deduplicated
preserving order, and the returned boolean is recomputed from the
deduplicated list in the final line (`needs_review = len(deduped) > 0`),
discarding the intermediate `needs_review` local exactly as Python does. -/
def computeFlags (ocrStatus : Chars) (n : Normalized) (parsedFlags : Option (List Chars)) :
    List Chars × Bool :=
  let p := computeFlagsAux ocrStatus n parsedFlags
  let deduped := dedupKeepFirst [] p.1
  (deduped, decide (deduped.length > 0))

/-! ## `app/main.py` — strict money coercion and the totals-only fix -/

/-- `_MONEY_2DP = ^\s*\$?\d{1,6}(,\d{3})*\.\d{2}\s*$` — consume maximal
`,ddd` thousands groups (the regex's greedy star; giving a group back can
never help, since the character after a group boundary is `,`, not `.`). -/
def eatCommaGroups (l : Chars) : Chars :=
  match l with
  | ',' :: a :: b :: c :: t =>
    if isDigitC a && isDigitC b && isDigitC c then eatCommaGroups t
    else l
  | _ => l

/-- `_MONEY_2DP.match(s)` as a boolean: anchored at the start, and the
pattern's trailing `\s*$` anchors the end. -/
def money2dp (s : Chars) : Bool :=
  let r := s.dropWhile isSpaceC
  let r := match r with | '$' :: t => t | _ => r
  let (run, rest) := digitSpan r
  if run.length < 1 ∨ run.length > 6 then false
  else
    match eatCommaGroups rest with
    | '.' :: d1 :: d2 :: t =>
      isDigitC d1 && isDigitC d2 && (t.dropWhile isSpaceC).isEmpty
    | _ => false

/-- `_SUSPECT_SKU.search(s)` for `\b\d{5,}\b`: some maximal digit run of
length ≥ 5 delimited by non-word characters (or the ends of the string). -/
def suspectSku (s : Chars) : Bool :=
  (digitRuns s).any fun (pb, run, na, _) =>
    run.length ≥ 5 &&
    (match pb with | Option.none => true | Option.some c => !isWordC c) &&
    (match na with | Option.none => true | Option.some c => !isWordC c)

/-- Python `float(int(q)) == q`: the float is integer-valued (for an exact
rational: denominator 1). -/
def intValued (q : ℚ) : Bool := q.den = 1

/-- `float(s2)` for the post-`_MONEY_2DP` shape with `$`, `,` removed and
whitespace stripped: digits, a dot, and exactly two fraction digits. -/
def parseMoney2dp (s : Chars) : Option ℚ :=
  let s2 := stripS (s.filter fun c => c ≠ '$' && c ≠ ',')
  let (run, rest) := digitSpan s2
  match rest with
  | '.' :: frac => Option.some (Rat.divInt (digitsVal run * 100 + digitsVal frac) 100)
  | _ => Option.none

/-- `_coerce_money_float(v)` from `app/main.py` (lines 652–699). -/
def coerceMoneyFloat (v : PyVal) : Option ℚ :=
  match v with
  | PyVal.none => Option.none
  | PyVal.num f =>
    -- Reject absurd totals (very likely SKU/ID leakage)
    if f < 0 ∨ f ≥ 50000 then Option.none
    -- Integer-ish value with lots of digits (SKU/UPC): reject
    else if qabs f ≥ 10000 ∧ intValued f then Option.none
    else Option.some f
  | PyVal.str s0 =>
    let s := stripS s0
    if s.isEmpty then Option.none
    -- 5+ digit run and no decimal point: obvious SKU/UPC token
    else if suspectSku s ∧ ¬ s.contains '.' then Option.none
    -- strict format check, then parse with `$`/`,` removed
    else if ¬ money2dp s then Option.none
    else parseMoney2dp s
  | PyVal.other => Option.none

/-- The `parsed` argument of `_fix_totals_only` as the function reads it: the
values of the `getattr`/`.get` chains (`total_line` stands for
`total_line or total_source_line`, `ocr_text` for `ocr_text or text or ""`). -/
structure ParsedView where
  total : PyVal
  total_confidence : Option ℚ
  total_reasoning : Option Chars
  total_line : Option Chars
  ocr_text : Chars
deriving DecidableEq

/-- Keyword list of the totals-only fix's context guard. -/
def fixTotalsTotalWords : List Chars :=
  [" total".data, "total:".data, "amount due".data, "balance".data,
   "grand total".data, "invoice total".data, "debit".data, "visa".data]

/-- The guarded parsed total of `_fix_totals_only` (lines 729–748): strict
money coercion, then the SKU/total-word context guard built from the source
line or the leading OCR text. -/
def fixTotalsGuardedTotal (p : ParsedView) : Option ℚ :=
  -- STRICT money coercion (blocks 797.860 and SKUs)
  let pTotalF := coerceMoneyFloat p.total
  -- Extra context guard from the source line / leading OCR text
  let src : Chars :=
    match p.total_line with
    | Option.some l =>
      if !(stripS l).isEmpty then stripS l
      else if !(stripS p.ocr_text).isEmpty then p.ocr_text.take 2000 else []
    | Option.none =>
      if !(stripS p.ocr_text).isEmpty then p.ocr_text.take 2000 else []
  if !src.isEmpty then
    let low := lowerS src
    let hasTotalWord := hasAnySub low fixTotalsTotalWords
    let hasSku := suspectSku src
    if hasSku ∧ ¬ hasTotalWord then Option.none else pTotalF
  else pTotalF

/-- Step of `_fix_totals_only` at lines 750–753: if `normalized.total` is
missing, copy the (guarded, valid) parsed total into it. -/
def fixTotalsStep1 (pTotalF : Option ℚ) (n : Normalized) : Normalized :=
  match n.total, pTotalF with
  | Option.none, Option.some f => { n with total := Option.some (pyRound f 2) }
  | _, _ => n

/-- Step of `_fix_totals_only` at lines 755–761: mirror the parsed total
confidence when the normalized one is 0. -/
def fixTotalsStep2 (pConf : Option ℚ) (n : Normalized) : Normalized :=
  match pConf with
  | Option.some c => if n.total_confidence = 0 then { n with total_confidence := c } else n
  | Option.none => n

/-- Step of `_fix_totals_only` at lines 763–767: mirror the parsed total
reasoning when the normalized one is empty. -/
def fixTotalsStep3 (pReason : Option Chars) (n : Normalized) : Normalized :=
  if n.total_reasoning.isEmpty && strTruthy pReason then
    { n with total_reasoning := pReason.getD [] }
  else n

/-- `_fix_totals_only(parsed, normalized)` from `app/main.py` (lines 702–775),
as the transformation it applies to `normalized` (the function mutates the
record in place; the dict-path write-back to `parsed["total"]` does not touch
`normalized` and is outside this model). -/
def fixTotalsOnly (p : ParsedView) (n : Normalized) : Normalized :=
  fixTotalsStep3 p.total_reasoning
    (fixTotalsStep2 p.total_confidence
      (fixTotalsStep1 (fixTotalsGuardedTotal p) n))

/-! ## `app/services/parser_service.py` — money token extraction -/

/-- One money candidate `(value, raw, position)` as produced by
`_money_candidates_from_text` / `_implied_cents_candidates_from_text`. -/
structure MCand where
  val : ℚ
  raw : Chars
  pos : ℕ
deriving DecidableEq

/-- Match payload of the money-pattern scanners: the decoded value, the raw
matched text, and whether the code `continue`s over this (consumed) match. -/
structure MPay where
  val : ℚ
  raw : Chars
  skip : Bool
deriving DecidableEq

/-- `dec_pat = (\$)?\s*((\d{1,3}(,\d{3})+|\d+)\.\d{2})` at one position.  The
alternation is deterministic: the thousands-group branch applies exactly when
the leading digit run has length ≤ 3 and at least one full `,ddd` group
follows (backtracking to fewer groups can never succeed because the character
at a group boundary is `,`, not `.`). -/
def decMatchAt (_prev : Option Char) (s : Chars) : Option (MPay × ℕ) :=
  let (dollar, s1) := match s with | '$' :: t => (1, t) | _ => (0, s)
  let (sp, s2) := spaceSpan s1
  let (run, s3) := digitSpan s2
  if run.isEmpty then Option.none
  else
    let groupsLen := s3.length - (eatCommaGroups s3).length
    if run.length ≤ 3 ∧ groupsLen > 0 then
      match eatCommaGroups s3 with
      | '.' :: d1 :: d2 :: _ =>
        if isDigitC d1 && isDigitC d2 then
          let allDigits := run ++ (s3.take groupsLen).filter isDigitC
          let L := dollar + sp.length + run.length + groupsLen + 3
          Option.some ({ val := Rat.divInt (digitsVal allDigits * 100 + digitsVal [d1, d2]) 100,
                         raw := s.take L, skip := false }, L)
        else Option.none
      | _ => Option.none
    else
      match s3 with
      | '.' :: d1 :: d2 :: _ =>
        if isDigitC d1 && isDigitC d2 then
          let L := dollar + sp.length + run.length + 3
          Option.some ({ val := Rat.divInt (digitsVal run * 100 + digitsVal [d1, d2]) 100,
                         raw := s.take L, skip := false }, L)
        else Option.none
      | _ => Option.none

/-- `re.search(r"\d{1,3},\d{3}\b", num)`: the post-match thousands-style test
applied to the euro-pattern capture (`continue` when it hits). -/
def euroThousandsSkip (num : Chars) : Bool :=
  (List.range num.length).any fun p =>
    (List.range' 1 3).any fun k =>
      ((num.drop p).take k).length = k &&
      ((num.drop p).take k).all isDigitC &&
      (match num.drop (p + k) with
       | ',' :: a :: b :: c :: rest =>
         isDigitC a && isDigitC b && isDigitC c &&
         (match rest with | [] => true | x :: _ => !isWordC x)
       | _ => false)

/-- `euro_pat = (\$)?\s*(\d{1,6},\d{2})\b` at one position.  The greedy
`\d{1,6}` must absorb the whole digit run (taking fewer leaves a digit where
`,` is required), so the run length must be ≤ 6. -/
def euroMatchAt (_prev : Option Char) (s : Chars) : Option (MPay × ℕ) :=
  let (dollar, s1) := match s with | '$' :: t => (1, t) | _ => (0, s)
  let (sp, s2) := spaceSpan s1
  let (run, s3) := digitSpan s2
  if run.isEmpty ∨ run.length > 6 then Option.none
  else
    match s3 with
    | ',' :: d1 :: d2 :: rest =>
      if isDigitC d1 && isDigitC d2 &&
          (match rest with | [] => true | x :: _ => !isWordC x) then
        let num := run ++ [','] ++ [d1, d2]
        let L := dollar + sp.length + run.length + 3
        Option.some ({ val := Rat.divInt (digitsVal run * 100 + digitsVal [d1, d2]) 100,
                       raw := s.take L, skip := euroThousandsSkip num }, L)
      else Option.none
    | _ => Option.none

/-- `trunc_pat = (\$)?\s*(\d{1,6}\.\d)\b` at one position (exactly one
fraction digit, followed by a word boundary). -/
def truncMatchAt (_prev : Option Char) (s : Chars) : Option (MPay × ℕ) :=
  let (dollar, s1) := match s with | '$' :: t => (1, t) | _ => (0, s)
  let (sp, s2) := spaceSpan s1
  let (run, s3) := digitSpan s2
  if run.isEmpty ∨ run.length > 6 then Option.none
  else
    match s3 with
    | '.' :: d1 :: rest =>
      if isDigitC d1 && (match rest with | [] => true | x :: _ => !isWordC x) then
        let L := dollar + sp.length + run.length + 2
        Option.some ({ val := Rat.divInt (digitsVal run * 10 + digitsVal [d1]) 10,
                       raw := s.take L, skip := false }, L)
      else Option.none
    | _ => Option.none

/-- `_add` of `_money_candidates_from_text` (lines 288–293): reject values
≤ 0 or > 50000, then record `(round(val, 2), raw.strip(), pos)`. -/
def addGuard (val : ℚ) (raw : Chars) (pos : ℕ) : Option MCand :=
  if val ≤ 0 ∨ val > 50000 then Option.none
  else Option.some { val := pyRound val 2, raw := stripS raw, pos := pos }

/-- Keywords whose presence anywhere in the lowered text enables the
implied-cents pass (`receipt_money_context`). -/
def receiptMoneyKws : List Chars :=
  ["total".data, "sale total".data, "grand total".data, "amount due".data,
   "balance due".data, "subtotal".data, "tax".data, "vat".data, "gst".data,
   "hst".data, "order total".data]

/-- Keywords that mark ID-ish contexts and disable the implied-cents pass
(`id_context`). -/
def idContextKws : List Chars :=
  ["aid".data, "auth".data, "approval".data, "ref".data, "reference".data,
   "tran".data, "trans".data, "invoice #".data, "inv#".data, "order".data,
   "acct".data, "account".data, "card".data, "mastercard".data, "visa".data,
   "amex".data]

/-- `re.search(r"\(\d{3}\)|\d{3}[-\s]\d{3}[-\s]\d{4}", w)`: phone-shaped text
in the neighborhood window. -/
def phoneShaped (w : Chars) : Bool :=
  (List.range w.length).any fun p =>
    (match w.drop p with
     | '(' :: a :: b :: c :: ')' :: _ => isDigitC a && isDigitC b && isDigitC c
     | _ => false) ||
    (match w.drop p with
     | a :: b :: c :: s1 :: d :: e :: f :: s2 :: g :: h :: i :: j :: _ =>
       isDigitC a && isDigitC b && isDigitC c && (s1 = '-' || isSpaceC s1) &&
       isDigitC d && isDigitC e && isDigitC f && (s2 = '-' || isSpaceC s2) &&
       isDigitC g && isDigitC h && isDigitC i && isDigitC j
     | _ => false)

/-- Pass 4 of `_money_candidates_from_text` (lines 331–381): guarded
implied-cents integers `\b(\d{3,6})\b`, enabled only in receipt-money context
and outside ID context.  (The trailing `store/register/...` check of the
source is a no-op: its branch is `pass`.) -/
def impliedPassCands (t : Chars) : List MCand :=
  let lo := lowerS t
  if hasAnySub lo receiptMoneyKws ∧ ¬ hasAnySub lo idContextKws then
    (digitRuns t).filterMap fun (pb, run, na, st) =>
      if !(3 ≤ run.length ∧ run.length ≤ 6) then Option.none
      else if !(match pb with | Option.none => true | Option.some c => !isWordC c) then Option.none
      else if !(match na with | Option.none => true | Option.some c => !isWordC c) then Option.none
      -- Skip years and dates-ish
      else if run.length = 4 ∧ (['1', '9'].isPrefixOf run ∨ ['2', '0'].isPrefixOf run) then
        Option.none
      -- Skip obvious phone chunks by local neighborhood check
      else if phoneShaped ((t.drop (st - 8)).take ((st + run.length + 8) - (st - 8))) then
        Option.none
      else
        let val : ℚ := Rat.divInt (digitsVal run) 100
        if val ≤ 0 ∨ val > 50000 then Option.none
        else addGuard val run st
  else []

/-- De-dupe by `(round(val, 2), pos)` keeping first occurrences (end of
`_money_candidates_from_text`). -/
def dedupByValPos : List (ℚ × ℕ) → List MCand → List MCand
  | _, [] => []
  | seen, c :: t =>
    let key := (pyRound c.val 2, c.pos)
    if seen.contains key then dedupByValPos seen t
    else c :: dedupByValPos (key :: seen) t

/-- `_money_candidates_from_text(text)` from `app/services/parser_service.py`
(lines 263–393): the four decoding passes, each `_add`-guarded, then
deduplication by value and position. -/
def moneyCandidatesFromText (t : Chars) : List MCand :=
  if t.isEmpty then []
  else
    let pass1 := (reFindIter decMatchAt t).filterMap
      fun (m, pos) => if m.skip then Option.none else addGuard m.val m.raw pos
    let pass2 := (reFindIter euroMatchAt t).filterMap
      fun (m, pos) => if m.skip then Option.none else addGuard m.val m.raw pos
    let pass3 := (reFindIter truncMatchAt t).filterMap
      fun (m, pos) => if m.skip then Option.none else addGuard (pyRound m.val 2) m.raw pos
    let pass4 := impliedPassCands t
    dedupByValPos [] (pass1 ++ pass2 ++ pass3 ++ pass4)

/-- ID markers of `_implied_cents_candidates_from_text` (lines 428–432). -/
def impliedIdMarkers : List Chars :=
  ["id".data, "aid".data, "ref".data, "auth".data, "approval".data, "appr".data,
   "tran".data, "txn".data, "inv".data, "invoice".data, "order".data, "store".data,
   "register".data, "terminal".data, "cashier".data, "mastercard".data, "visa".data,
   "amex".data, "acct".data, "account".data]

/-- `_implied_cents_candidates_from_text(text)` (lines 402–453).  The pattern
`(?<!\d)(\d{3,7})(?!\d)` picks exactly the maximal digit runs of length 3–7
(`digitRuns` reports maximal runs, so both look-arounds hold automatically). -/
def impliedCentsCands (t : Chars) : List MCand :=
  if t.isEmpty then []
  else
    (digitRuns t).filterMap fun (_, run, _, st) =>
      if ¬ (3 ≤ run.length ∧ run.length ≤ 7) then Option.none
      else
        -- Local context window around the token
        let ctx := lowerS ((t.drop (st - 18)).take ((st + run.length + 18) - (st - 18)))
        -- If it smells like an ID/reference/auth/etc, drop it
        if hasAnySub ctx impliedIdMarkers then Option.none
        -- 5-digit tokens are very often IDs; only allow with an explicit $ near
        else if run.length = 5 ∧ ¬ ctx.contains '$' then Option.none
        else
          let val := pyRound (Rat.divInt (digitsVal run) 100) 2
          if val ≤ 0 ∨ val > 50000 then Option.none
          else Option.some { val := val, raw := run, pos := st }

/-- Decoding strategy tag of `_extract_money_tokens`. -/
inductive TokKind where
  | decimal
  | impliedCents
deriving DecidableEq

/-- `_extract_money_tokens(text)` (lines 455–465). -/
def extractMoneyTokens (t : Chars) : List (MCand × TokKind) :=
  (moneyCandidatesFromText t).map (fun c => (c, TokKind.decimal)) ++
    (impliedCentsCands t).map (fun c => (c, TokKind.impliedCents))

/-- Module-level `_extract_money_values_from_text(text, labeled_window)`
(lines 822–853): token values, implied cents trusted only in labeled windows.
(The regex fallback branch of the source is dead: `_extract_money_tokens` is
always in `globals()`.) -/
def taxMoneyValues (t : Chars) (labeledWindow : Bool) : List ℚ :=
  (extractMoneyTokens t).filterMap fun (c, k) =>
    if k = TokKind.impliedCents ∧ ¬ labeledWindow then Option.none
    else Option.some c.val

/-! ## `parser_service.py` — tax extraction -/

/-- Bad hints of module-level `_is_bad_total_context` (lines 871–881). -/
def badTotalHints : List Chars :=
  ["item total".data, "items total".data, "item(s) total".data,
   "subtotal".data, "sub total".data, "total before tax".data, "pretax".data,
   "pre tax".data, "before tax".data,
   "tax".data, "sales tax".data, "vat".data, "gst".data, "hst".data,
   "discount".data, "coupon".data, "savings".data,
   "change".data, "cash".data, "tender".data, "payment".data, "paid".data,
   "balance".data, "amount due".data,
   "tip".data, "gratuity".data,
   "shipping".data, "handling".data,
   "deposit".data,
   "auth".data, "authorization".data]

/-- Good final-total hints of `_is_bad_total_context` (lines 885–892). -/
def goodTotalHints : List Chars :=
  ["grand total".data, "order total".data, "total due".data, "amount due".data,
   "balance due".data, "total:".data]

/-- Module-level `_is_bad_total_context(text)` (lines 855–897). -/
def isBadTotalContext (text : Chars) : Bool :=
  if text.isEmpty then false
  else
    let t := lowerS text
    if hasAnySub t goodTotalHints then false
    else hasAnySub t badTotalHints

/-- Strong tax labels of `_extract_tax` (lines 924–938). -/
def taxStrongLabels : List Chars :=
  ["sales tax".data, "estimated tax".data, "tax to be collected".data,
   "tax collected".data, "tax amount".data, "vat".data, "gst".data, "pst".data,
   "hst".data, "qst".data, "iva".data, "mwst".data, "tva".data]

/-- Medium tax labels (lines 941–945). -/
def taxMediumLabels : List Chars :=
  ["tax:".data, " tax ".data, "tax ".data]

/-- Tax trap phrases (lines 948–962). -/
def taxTraps : List Chars :=
  ["before tax".data, "total before tax".data, "pre-tax".data, "pretax".data,
   "taxable".data, "tax rate".data, "tax %".data, "tax percent".data,
   "% tax".data, "tax id".data, "tax no".data, "tax number".data,
   "tax invoice".data]

/-- Subtotal-ish labels used for the tax inference (lines 965–974). -/
def taxSubtotalLabels : List Chars :=
  ["subtotal".data, "sub total".data, "total before tax".data,
   "before tax total".data, "pre-tax total".data, "pretax total".data,
   "merchandise".data, "items subtotal".data]

/-- Grand-total labels used for the tax inference (lines 977–985). -/
def taxTotalLabels : List Chars :=
  ["grand total".data, "order total".data, "amount due".data,
   "balance due".data, "total:".data, "total $".data, "total ".data]

/-- `last_money(line)` of `_extract_tax`: last labeled-window money value. -/
def lastMoney (ln : Chars) : Option ℚ :=
  (taxMoneyValues ln true).getLast?

/-- State of `_extract_tax`'s pass A scan loop. -/
structure TaxScan where
  bestVal : Option ℚ
  bestScore : ℚ
  bestReason : Chars
  seenSubtotal : Option ℚ
  seenTotal : Option ℚ
  seenSubtotalSrc : Option Chars
  seenTotalSrc : Option Chars
deriving DecidableEq

/-- Initial pass A state (lines 1008–1016). -/
def taxScanInit : TaxScan :=
  { bestVal := Option.none, bestScore := 0,
    bestReason := "No tax signal found.".data,
    seenSubtotal := Option.none, seenTotal := Option.none,
    seenSubtotalSrc := Option.none, seenTotalSrc := Option.none }

/-- Source string `f"{src}: '{ln}'"` used for the inference reasoning. -/
def taxSrcStr (src ln : Chars) : Chars :=
  src ++ ": \x27".data ++ ln ++ "\x27".data

/-- One iteration of `_extract_tax`'s pass A (lines 1019–1092): capture
subtotal/total candidates for the inference, and score explicit tax lines. -/
def taxScanStep (st : TaxScan) (item : Chars × Chars) : TaxScan :=
  let (src, ln) := item
  let t := lowerS (stripS ln)
  if t.isEmpty then st
  else
    -- Capture subtotal-ish for inference
    let st :=
      if st.seenSubtotal = Option.none ∧ hasAnySub t taxSubtotalLabels then
        match lastMoney ln with
        | Option.some v =>
          { st with seenSubtotal := Option.some v,
                    seenSubtotalSrc := Option.some (taxSrcStr src ln) }
        | Option.none => st
      else st
    -- Capture total-ish for inference (refusing bad contexts)
    let st :=
      if st.seenTotal = Option.none ∧ hasAnySub t taxTotalLabels then
        if isBadTotalContext t then st
        else
          match lastMoney ln with
          | Option.some v =>
            { st with seenTotal := Option.some v,
                      seenTotalSrc := Option.some (taxSrcStr src ln) }
          | Option.none => st
      else st
    -- Skip trap lines for explicit tax detection
    if hasAnySub t taxTraps then st
    else
      let isStrong := hasAnySub t taxStrongLabels
      let isMedium := ¬ isStrong ∧ hasAnySub t taxMediumLabels
      if ¬ (isStrong ∨ isMedium) then st
      else
        match lastMoney ln with
        | Option.none => st
        | Option.some v =>
          let score := if isMedium then qc 70 else qc 85
          let score := if src = "totals_pass".data then qadd score (qc 8) else score
          let score := if ln.contains '$' then qadd score (qc 3) else score
          let score := if v < qc 1 then qsub score (qc 50) else score
          let score := if v > 500 then qsub score (qc 25) else score
          let score :=
            match st.seenTotal with
            | Option.some tv => if v > tv then qsub score (qc 60) else score
            | Option.none => score
          let score := clamp01 score
          if score > st.bestScore then
            let strength := if isStrong then "strong".data else "medium".data
            { st with bestVal := Option.some v, bestScore := score,
                      bestReason := "Matched ".data ++ strength ++
                        " tax label; Source: (".data ++ src ++ ") \x27".data ++
                        ln ++ "\x27".data }
          else st

/-- Association-list lookup for the sections mapping (`dict.get`). -/
def secGet (sections : List (Chars × List Chars)) (name : Chars) : Option (List Chars) :=
  match sections with
  | [] => Option.none
  | (k, v) :: t => if k = name then Option.some v else secGet t name

/-- Scan lines of `_extract_tax` (lines 1000–1005): `totals_pass` lines first
(when the sections dict is truthy and has a truthy `totals_pass` entry), then
every line tagged `full`. -/
def taxScanLines (lines : List Chars) (sections : List (Chars × List Chars)) :
    List (Chars × Chars) :=
  let totals :=
    if sections ≠ [] then
      match secGet sections "totals_pass".data with
      | Option.some ls => ls.map (fun ln => ("totals_pass".data, ln))
      | Option.none => []
    else []
  totals ++ lines.map (fun ln => ("full".data, ln))

/-- Result of pass A over all scan lines. -/
def taxScanResult (lines : List Chars) (sections : List (Chars × List Chars)) : TaxScan :=
  (taxScanLines lines sections).foldl taxScanStep taxScanInit

/-- Pass B of `_extract_tax` (lines 1098–1117): infer tax from subtotal and
total, plus the final fallback return. -/
def taxInference (st : TaxScan) : Option ℚ × ℚ × Chars :=
  match st.seenTotal, st.seenSubtotal with
  | Option.some tot, Option.some sub =>
    let inferred := pyRound (qsub tot sub) 2
    if inferred ≥ 0 then
      if tot > 0 ∧ qdiv inferred tot ≤ qc 25 then
        let conf := qc 70
        let fromTotals : Option Chars → Bool := fun o =>
          match o with
          | Option.some s => isSubstr "totals_pass".data s
          | Option.none => false
        let conf :=
          if fromTotals st.seenTotalSrc && fromTotals st.seenSubtotalSrc then qadd conf (qc 5)
          else conf
        let conf := clamp01 conf
        (Option.some inferred, toConf100 conf,
          "Inferred tax = total - subtotal (".data ++ fmt2f tot ++ " - ".data ++
            fmt2f sub ++ "). Total from ".data ++ (st.seenTotalSrc.getD []) ++
            "; subtotal from ".data ++ (st.seenSubtotalSrc.getD []))
      else (Option.none, 0, "No tax line detected.".data)
    else (Option.none, 0, "No tax line detected.".data)
  | _, _ => (Option.none, 0, "No tax line detected.".data)

/-- `_extract_tax(lines, joined, sections)` (lines 899–1117). -/
def extractTax (lines : List Chars) (joined : Chars)
    (sections : List (Chars × List Chars)) : Option ℚ × ℚ × Chars :=
  if (stripS joined).isEmpty then (Option.none, 0, "No OCR text.".data)
  else
    let st := taxScanResult lines sections
    match st.bestVal with
    | Option.some v => (Option.some (pyRound v 2), toConf100 st.bestScore, st.bestReason)
    | Option.none => taxInference st

/-! ## `parser_service.py` — total extraction -/

/-- Collapse whitespace runs to single spaces (`inSp` marks being inside a
run). -/
def collapseWs : Bool → Chars → Chars
  | _, [] => []
  | inSp, c :: t =>
    if isSpaceC c then
      if inSp then collapseWs true t else ' ' :: collapseWs true t
    else c :: collapseWs false t

/-- `_norm_text(s)` of `_extract_total`: strip, then collapse every whitespace
run to a single space. -/
def normText (s : Chars) : Chars :=
  collapseWs false (stripS s)

/-- Consecutive `[,\s]\d{3}` thousands groups (each exactly 4 characters)
available at the head of the string — the greedy star of `MONEY_RE`. -/
def countMoneyGroups : Chars → ℕ
  | sep :: a :: b :: c :: t =>
    if (sep = ',' || isSpaceC sep) && isDigitC a && isDigitC b && isDigitC c then
      countMoneyGroups t + 1
    else 0
  | _ => 0

/-- Is the string empty or starting with a non-word character (`(?!\w)`)? -/
def boundaryNext (l : Chars) : Bool :=
  match l with
  | [] => true
  | c :: _ => !isWordC c

/-- `MONEY_RE = (?<!\w)(?:\$?\s*)(\d{1,6}(?:[,\s]\d{3})*(?:\.\d{1,2})?|\d{1,6})(?!\w)`
at one position: payload is the captured token (group 1).  The greedy
`\d{1,6}` must absorb the whole digit run (so runs over 6 digits never
match); the thousands star backtracks group by group, and for each group
count the optional decimal backtracks `.dd`, `.d`, none — the first
combination followed by a non-word character wins. -/
def totalMatchAt (prev : Option Char) (s : Chars) : Option (Chars × ℕ) :=
  if (match prev with | Option.some c => isWordC c | Option.none => false) then Option.none
  else
    let (dollar, s1) := match s with | '$' :: t => (1, t) | _ => (0, s)
    let (sp, s2) := spaceSpan s1
    let (run, s3) := digitSpan s2
    if run.isEmpty ∨ run.length > 6 then Option.none
    else
      let maxG := countMoneyGroups s3
      let tryAt : ℕ → Option (Chars × ℕ) := fun k =>
        let rest := s3.drop (4 * k)
        let base := run ++ s3.take (4 * k)
        let baseL := dollar + sp.length + run.length + 4 * k
        match rest with
        | '.' :: d1 :: d2 :: t2 =>
          if isDigitC d1 && isDigitC d2 && boundaryNext t2 then
            Option.some (base ++ ['.', d1, d2], baseL + 3)
          else if isDigitC d1 && boundaryNext (d2 :: t2) then
            Option.some (base ++ ['.', d1], baseL + 2)
          else if boundaryNext rest then Option.some (base, baseL)
          else Option.none
        | '.' :: d1 :: t2 =>
          if isDigitC d1 && boundaryNext t2 then
            Option.some (base ++ ['.', d1], baseL + 2)
          else if boundaryNext rest then Option.some (base, baseL)
          else Option.none
        | _ => if boundaryNext rest then Option.some (base, baseL) else Option.none
      ((List.range (maxG + 1)).reverse).findSome? tryAt

/-- `_parse_money(token, labeled_window)` of `_extract_total`
(lines 1178–1220).  (The truncated-decimal reformat of the source,
`float(f"{val:.2f}")`, does not change the exact value.) -/
def parseMoneyTok (token : Chars) (labeledWindow : Bool) : Option ℚ :=
  if token.isEmpty then Option.none
  else
    let t := (stripS token).filter (fun c => c ≠ ',' && c ≠ ' ')
    let t := match t with | '$' :: r => r | _ => t
    let (run, rest) := digitSpan t
    let shapeOk : Bool :=
      !run.isEmpty &&
      (match rest with
       | [] => true
       | '.' :: frac => !frac.isEmpty && frac.length ≤ 2 && frac.all isDigitC
       | _ => false)
    if !shapeOk then Option.none
    -- Implied cents (4749 => 47.49) ONLY in labeled windows
    else if labeledWindow && rest.isEmpty && 3 ≤ run.length && run.length ≤ 6 then
      Option.some (Rat.divInt (digitsVal run) 100)
    else
      match rest with
      | '.' :: frac =>
        Option.some (Rat.divInt (digitsVal run * 10 ^ frac.length + digitsVal frac)
          (10 ^ frac.length))
      | _ => Option.some (Rat.divInt (digitsVal run) 1)

/-- Inner `_extract_money_values_from_text(s, labeled_window)` of
`_extract_total` (lines 1271–1280): every `MONEY_RE` token parsed by
`_parse_money`. -/
def totalMoneyValues (s : Chars) (labeledWindow : Bool) : List ℚ :=
  (reFindIter totalMatchAt s).filterMap fun (tok, _) => parseMoneyTok tok labeledWindow

/-- One literal word, then `\s*` (`minSp = 0`) or `\s+` (`minSp = 1`), then a
second literal, somewhere in the text (the shape of the strong-label
regexes; the words start with non-space characters, so maximal-munch spacing
is exact). -/
def containsGap (t w1 w2 : Chars) (minSp : ℕ) : Bool :=
  (List.range t.length).any fun p =>
    let r := t.drop p
    w1.isPrefixOf r &&
    (let r2 := r.drop w1.length
     let (sp, r3) := spaceSpan r2
     decide (sp.length ≥ minSp) && w2.isPrefixOf r3)

/-- Three literal words separated by `\s+` (`pay\s+this\s+amount`). -/
def containsGap3 (t w1 w2 w3 : Chars) : Bool :=
  (List.range t.length).any fun p =>
    let r := t.drop p
    w1.isPrefixOf r &&
    (let r2 := r.drop w1.length
     let (sp, r3) := spaceSpan r2
     decide (sp.length ≥ 1) && w2.isPrefixOf r3 &&
     (let r4 := r3.drop w2.length
      let (sp2, r5) := spaceSpan r4
      decide (sp2.length ≥ 1) && w3.isPrefixOf r5))

/-- `\b<word>\b` at some position of `t`. -/
def containsWordB (t w : Chars) : Bool :=
  (List.range t.length).any fun p =>
    (decide (p = 0) || (match (t.drop (p - 1)).head? with
                        | Option.some c => !isWordC c
                        | Option.none => false)) &&
    w.isPrefixOf (t.drop p) &&
    boundaryNext ((t.drop p).drop w.length)

/-- `\btotal\b\s+\$` at some position of `t`. -/
def containsWordTotalDollar (t : Chars) : Bool :=
  (List.range t.length).any fun p =>
    (decide (p = 0) || (match (t.drop (p - 1)).head? with
                        | Option.some c => !isWordC c
                        | Option.none => false)) &&
    "total".data.isPrefixOf (t.drop p) &&
    (let r := (t.drop p).drop 5
     boundaryNext r &&
     (let (sp, r2) := spaceSpan r
      decide (sp.length ≥ 1) && (match r2 with | '$' :: _ => true | _ => false)))

/-- `_has_any_pattern(s, STRONG_LABEL_PATTERNS)` (lines 1223–1231) on the
lowered text. -/
def hasStrongLabel (s : Chars) : Bool :=
  let lo := lowerS s
  containsGap lo "grand".data "total".data 0 ||
  containsGap lo "total".data "due".data 1 ||
  containsGap lo "amount".data "due".data 1 ||
  containsGap lo "balance".data "due".data 1 ||
  containsGap lo "amount".data "payable".data 1 ||
  containsGap3 lo "pay".data "this".data "amount".data ||
  containsGap lo "order".data "total".data 0

/-- `_has_any_pattern(s, WEAK_LABEL_PATTERNS)` (lines 1232–1236): each weak
pattern is satisfied exactly when the word `total` occurs with word
boundaries (`\s*:?` and the bare form add nothing to existence; the `\s+\$`
variant is subsumed) — kept in the disjunction for fidelity. -/
def hasWeakLabel (s : Chars) : Bool :=
  let lo := lowerS s
  containsWordB lo "total".data ||
  containsWordTotalDollar lo ||
  containsWordB lo "total".data

/-- `BAD_CONTEXT_KEYWORDS` of `_extract_total` (lines 1238–1252). -/
def badContextKeywords : List Chars :=
  ["subtotal".data, "sub total".data,
   "item total".data, "items total".data,
   "line total".data, "extended".data, "ext price".data, "extension".data,
   "merchandise".data, "merch total".data,
   "taxable".data, "vat".data,
   "tip".data, "gratuity".data,
   "tender".data, "cash".data, "change".data,
   "amount tendered".data,
   "payment".data, "debit".data, "credit".data,
   "card".data, "visa".data, "mastercard".data,
   "auth".data, "approval".data,
   "discount".data, "savings".data,
   "refund".data]

/-- `ITEM_MATH_RE.search`: `\b\d+\s*(?:x|@)\s*\$?\s*\d+(\.\d{1,2})?\b` on the
lowered line. -/
def itemMathSearch (t : Chars) : Bool :=
  (List.range t.length).any fun p =>
    (decide (p = 0) || (match (t.drop (p - 1)).head? with
                        | Option.some c => !isWordC c
                        | Option.none => false)) &&
    (let r := t.drop p
     let (run1, r1) := digitSpan r
     !run1.isEmpty &&
     (let (_, r2) := spaceSpan r1
      (match r2 with
       | op :: r3 =>
         (op = 'x' || op = '@') &&
         (let (_, r4) := spaceSpan r3
          let r5 := match r4 with | '$' :: t5 => t5 | _ => r4
          let (_, r6) := spaceSpan r5
          let (run2, r7) := digitSpan r6
          !run2.isEmpty &&
          (boundaryNext r7 ||
           (match r7 with
            | '.' :: d1 :: d2 :: t7 =>
              (isDigitC d1 && isDigitC d2 && boundaryNext t7) ||
              (isDigitC d1 && boundaryNext (d2 :: t7))
            | '.' :: d1 :: t7 => isDigitC d1 && boundaryNext t7
            | _ => false)))
       | [] => false)))

/-- Inner `_is_bad_context(s)` of `_extract_total` (lines 1260–1269). -/
def isBadContext (s : Chars) : Bool :=
  let lo := lowerS s
  if hasStrongLabel lo then false
  else if hasAnySub lo badContextKeywords then true
  else itemMathSearch lo

/-- A scored total candidate `(score, val, reason)` (the Python code keeps
triples in this order). -/
structure TCand where
  score : ℚ
  val : ℚ
  reason : Chars
deriving DecidableEq

/-- `_score(val, ctx, has_label)` of `_extract_total` (lines 1282–1322),
parameterised by the already-extracted `tax_value` it closes over. -/
def scoreTotal (taxValue : Option ℚ) (val : ℚ) (ctx : Chars) (hasLabel : Bool) :
    ℚ × List Chars :=
  let why : List Chars :=
    [if hasLabel then "Labeled total window".data else "Unlabeled candidate".data]
  let score : ℚ := if hasLabel then qc 90 else qc 55
  let lo := lowerS ctx
  -- Penalize obvious non-total contexts
  let (score, why) :=
    if isBadContext ctx then (qsub score (qc 35), why ++ ["Penalized: bad context".data])
    else (score, why)
  -- Penalize tax lines hard
  let (score, why) :=
    if isSubstr "tax".data lo ∨ isSubstr "vat".data lo then
      (qsub score (qc 30), why ++ ["Penalized: tax context".data])
    else (score, why)
  -- Plausibility
  let (score, why) :=
    if val < 1 then (qsub score (qc 25), why ++ ["Penalized: too small".data])
    else if val > 20000 then (qsub score (qc 20), why ++ ["Penalized: unusually large".data])
    else (score, why)
  -- Candidate close to the extracted tax value
  let (score, why) :=
    match taxValue with
    | Option.some tv =>
      if qabs (qsub val tv) ≤ qc 2 then
        (qsub score (qc 35), why ++ ["Penalized: matches tax value".data])
      else (score, why)
    | Option.none => (score, why)
  -- Favor two-decimal values: abs(val*100 - round(val*100)) < 1e-6
  let (score, why) :=
    if qabs (qsub (qmul val 100) ((roundHalfEven (qmul val 100) : ℤ) : ℚ)) <
        Rat.divInt 1 1000000 then
      (qadd score (qc 3), why ++ ["Bump: currency-like precision".data])
    else (score, why)
  (qmax 0 (qmin 1 score), why)

/-- Python `max(candidates, key=lambda t: t[0])`: the first candidate with the
maximal score (later candidates replace only on strictly greater key). -/
def bestCand : List TCand → Option TCand
  | [] => Option.none
  | c :: t =>
    Option.some (t.foldl (fun best x => if x.score > best.score then x else best) c)

/-- Candidate reason `f"{' ; '.join(why)}. Source: '{src}'"`. -/
def candReason (why : List Chars) (src : Chars) : Chars :=
  joinSep " ; ".data why ++ ". Source: \x27".data ++ src ++ "\x27".data

/-- The unified, de-duplicated line list of `_extract_total`
(lines 1325–1345): normalized input lines (or lines split from `joined` when
none are given), then every section's lines, first occurrences kept. -/
def totalAllLines (lines : List Chars) (joined : Chars)
    (sections : List (Chars × List Chars)) : List Chars :=
  let base :=
    if lines ≠ [] then
      (lines.filter (fun x => !(stripS x).isEmpty)).map normText
    else
      ((joined.splitOn '\n').filter (fun x => !(stripS x).isEmpty)).map normText
  let withSecs := base ++ sections.flatMap (fun (_, ls) =>
    (ls.map normText).filter (fun tx => !tx.isEmpty))
  dedupKeepFirst [] withSecs

/-- Pass 1 of `_extract_total` (lines 1347–1379): strong-label windows.
Returns the candidate list and the number of strong-label hits. -/
def totalPass1 (taxValue : Option ℚ) : List Chars → List TCand × ℕ
  | [] => ([], 0)
  | line :: rest =>
    let (cands, hits) := totalPass1 taxValue rest
    if hasStrongLabel line then
      -- Prefer value on the SAME line as the strong label
      let lineVals := totalMoneyValues line true
      if !lineVals.isEmpty then
        let v := lineVals.getLast?.getD 0
        let (sc, why) := scoreTotal taxValue v line true
        let sc := qmin 1 (qadd sc (qc 10))
        let why := why ++ ["Strong label match (same line)".data]
        ({ score := sc, val := v, reason := candReason why line } :: cands, hits + 1)
      else
        -- Window: current line + next 2 lines
        let windowText := joinSep " | ".data ((line :: rest).take 3)
        let vals := totalMoneyValues windowText true
        ((vals.map fun v =>
          let (sc, why) := scoreTotal taxValue v windowText true
          let sc := qmin 1 (qadd sc (qc 5))
          let why := why ++ ["Strong label match".data]
          { score := sc, val := v, reason := candReason why windowText }) ++ cands, hits + 1)
    else (cands, hits)

/-- Pass 2 of `_extract_total` (lines 1387–1405): weak-label windows. -/
def totalPass2 (taxValue : Option ℚ) : List Chars → List TCand × ℕ
  | [] => ([], 0)
  | line :: rest =>
    let (cands, hits) := totalPass2 taxValue rest
    if hasWeakLabel line && !isBadContext line then
      let windowText := joinSep " | ".data ((line :: rest).take 3)
      let vals := totalMoneyValues windowText true
      ((vals.map fun v =>
        let (sc, why) := scoreTotal taxValue v windowText true
        let sc := qmin 1 (qadd sc (qc 3))
        let why := why ++ ["Weak label match".data]
        { score := sc, val := v, reason := candReason why windowText }) ++ cands, hits + 1)
    else (cands, hits)

/-- Pass 3 of `_extract_total` (lines 1412–1421): global fallback over lines
that are not bad contexts, scored unlabeled. -/
def totalPass3 (taxValue : Option ℚ) (allLines : List Chars) : List TCand :=
  allLines.flatMap fun line =>
    if isBadContext line then []
    else
      (totalMoneyValues line false).map fun v =>
        let (sc, why) := scoreTotal taxValue v line false
        { score := sc, val := v, reason := candReason why line }

/-- Loosened fallback of `_extract_total` (lines 1424–1434): only item-math
lines stay excluded, with an extra −0.05 penalty. -/
def totalPass3Loose (taxValue : Option ℚ) (allLines : List Chars) : List TCand :=
  allLines.flatMap fun line =>
    if itemMathSearch (lowerS line) then []
    else
      (totalMoneyValues line false).map fun v =>
        let (sc, why) := scoreTotal taxValue v line false
        let sc := qmax 0 (qsub sc (qc 5))
        let why := why ++ ["Loosened context filter".data]
        { score := sc, val := v, reason := candReason why line }

/-- Return step shared by the passes: best candidate, confidence
`round(score*100, 2)`. -/
def totalReturnBest (cands : List TCand) : Option ℚ × ℚ × Chars :=
  match bestCand cands with
  | Option.some best => (Option.some best.val, pyRound (qmul best.score 100) 2, best.reason)
  | Option.none => (Option.none, 0, "No money candidates found.".data)

/-- `_extract_total(lines, joined, sections, tax_value)` (lines 1146–1441). -/
def extractTotal (lines : List Chars) (joined : Chars)
    (sections : List (Chars × List Chars)) (taxValue : Option ℚ) :
    Option ℚ × ℚ × Chars :=
  if (stripS joined).isEmpty ∧ lines = [] then (Option.none, 0, "No OCR text.".data)
  else
    let allLines := totalAllLines lines joined sections
    let (cands1, hits1) := totalPass1 taxValue allLines
    if !cands1.isEmpty ∧ hits1 > 0 then totalReturnBest cands1
    else
      let (cands2, hits2) := totalPass2 taxValue allLines
      if !cands2.isEmpty ∧ hits2 > 0 then totalReturnBest cands2
      else
        let cands3 := totalPass3 taxValue allLines
        let cands3 := if cands3.isEmpty then totalPass3Loose taxValue allLines else cands3
        totalReturnBest cands3

/-! ## `parser_service.py` — vendor extraction (alias stage, lines 485–585) -/

/-- `VENDOR_ALIASES` (lines 31–52). -/
def vendorAliases : List (Chars × List Chars) :=
  [("Walmart".data, ["walmart".data, "wal-mart".data, "wal mart".data, "walmrt".data,
      "wm supercenter".data, "wm".data]),
   ("Target".data, ["target".data, "tgt".data]),
   ("Amazon".data, ["amazon".data, "amazon.com".data, "amzn".data, "amzn mktp".data,
      "amzn marketplace".data]),
   ("Costco".data, ["costco".data, "costco wholesale".data]),
   ("Home Depot".data, ["home depot".data, "the home depot".data, "homedepot".data,
      "home dep0t".data, "home-depot".data]),
   ("Lowe\x27s".data, ["lowe\x27s".data, "lowes".data, "lowe s".data]),
   ("AutoZone".data, ["autozone".data, "auto zone".data, "autozo".data, "auto z0ne".data]),
   ("O\x27Reilly Auto Parts".data, ["o\x27reilly".data, "oreilly".data, "o reilly".data,
      "oreilly auto".data, "o\x27reilly auto".data]),
   ("Advance Auto Parts".data, ["advance auto".data, "advanceautoparts".data,
      "advance auto parts".data, "adv auto".data]),
   ("CVS".data, ["cvs".data, "cvs/pharmacy".data, "cvs pharmacy".data]),
   ("Walgreens".data, ["walgreens".data, "walgreeens".data, "walgreen".data]),
   ("Dollar General".data, ["dollar general".data, "dollargeneral".data, "dg".data]),
   ("Shell".data, ["shell".data]),
   ("Exxon".data, ["exxon".data, "esso".data]),
   ("Chevron".data, ["chevron".data]),
   ("Sunoco".data, ["sunoco".data]),
   ("BP".data, ["bp".data, "b p".data]),
   ("7-Eleven".data, ["7-eleven".data, "7 eleven".data, "seven eleven".data]),
   ("Starbucks".data, ["starbucks".data, "sbux".data]),
   ("McDonald\x27s".data, ["mcdonalds".data, "mc donalds".data, "mc donald\x27s".data,
      "mcd".data]),
   ("7-Eleven-dup-guard".data, [])].filter (fun p => p.1 ≠ "7-Eleven-dup-guard".data)

/-- Inner `_norm(s)` of `_extract_vendor`: lowercase, keep only `[a-z0-9]`. -/
def vnorm (s : Chars) : Chars :=
  (lowerS s).filter (fun c => ('a' ≤ c && c ≤ 'z') || ('0' ≤ c && c ≤ '9'))

/-- Maximal runs of `[a-z0-9']` characters (aux for `re.findall`). -/
def tokenRunsAux : Chars → Chars → List Chars
  | acc, [] => if acc.isEmpty then [] else [acc.reverse]
  | acc, c :: t =>
    if ('a' ≤ c && c ≤ 'z') || ('0' ≤ c && c ≤ '9') || c = '\x27' then
      tokenRunsAux (c :: acc) t
    else if acc.isEmpty then tokenRunsAux [] t
    else acc.reverse :: tokenRunsAux [] t

/-- `re.findall(r"[a-z0-9']{3,}", h)`: the maximal class runs of length ≥ 3. -/
def vendorTokens (h : Chars) : List Chars :=
  (tokenRunsAux [] h).filter (fun r => r.length ≥ 3)

/-- `_alias_hit(alias, hay)` of `_extract_vendor` (lines 503–538). -/
def aliasHit (aliasArg hay : Chars) : Bool :=
  let a := stripS (lowerS aliasArg)
  let h := lowerS hay
  if a.isEmpty || h.isEmpty then false
  -- 1) exact substring
  else if isSubstr a h then true
  else
    -- 2) normalized substring
    let aN := vnorm a
    let hN := vnorm h
    if !aN.isEmpty && isSubstr aN hN then true
    else
      -- 3) token prefix match (guarded)
      let a4 := if aN.length ≥ 4 then aN.take 4 else aN
      (vendorTokens h).any fun t =>
        let tN := vnorm t
        !tN.isEmpty && !a4.isEmpty && a4.isPrefixOf tN &&
          decide ((tN.length : ℤ) - (aN.length : ℤ) ≤ 4 ∧
                  (aN.length : ℤ) - (tN.length : ℤ) ≤ 4)

/-- Best alias match so far (`best_vendor`/`best_score`/`best_alias`/`best_src`
of `_extract_vendor`). -/
structure VBest where
  vendor : Option Chars
  score : ℚ
  aliasName : Option Chars
  src : Option Chars
deriving DecidableEq

/-- Score of a single alias hit (lines 555–568): base 0.84, the per-section
bump, +0.03 when the canonical name occurs verbatim in the search space,
clamped to [0,1]. -/
def vendorHitScore (spaceName : Chars) (hay : Chars) (canon : Chars) : ℚ :=
  let score := qc 84
  let score :=
    if spaceName = "vendor_pass".data then qadd score (qc 10)
    else if spaceName = "softtext_pass".data then qadd score (qc 6)
    else if spaceName = "top_full".data then qadd score (qc 4)
    else score
  let score := if isSubstr (lowerS canon) hay then qadd score (qc 3) else score
  clamp01 score

/-- Scan of one search space (the alias double loop, lines 546–573). -/
def vendorSpaceScan (best : VBest) (spaceName hay : Chars) : VBest :=
  vendorAliases.foldl
    (fun b (canon, aliases) =>
      aliases.foldl
        (fun b a =>
          let aLo := lowerS a
          if aLo.isEmpty then b
          else if aliasHit aLo hay then
            let score := vendorHitScore spaceName hay canon
            if score > b.score then
              { vendor := Option.some canon, score := score, aliasName := Option.some a,
                src := Option.some ("alias_match:".data ++ spaceName) }
            else b
          else b)
        b)
    best

/-- The search-space loop with its early exit (lines 546–577): after scanning
a space, stop when a ≥ 0.92 best exists and the space just scanned is
`vendor_pass` or `softtext_pass`. -/
def vendorSpacesLoop : VBest → List (Chars × Chars) → VBest
  | best, [] => best
  | best, (name, hay) :: rest =>
    let best := if hay.isEmpty then best else vendorSpaceScan best name hay
    if best.vendor.isSome ∧ best.score ≥ qc 92 ∧
        (name = "vendor_pass".data ∨ name = "softtext_pass".data) then best
    else vendorSpacesLoop best rest

/-- Search spaces of `_extract_vendor` (lines 485–497): `vendor_pass` and
`softtext_pass` section blocks when present, the first 14 lines of `full`,
then all of `full` — each lowercased and newline-joined. -/
def vendorSearchSpaces (lines : List Chars) (sections : List (Chars × List Chars)) :
    List (Chars × Chars) :=
  let vendorBlock := (secGet sections "vendor_pass".data).getD []
  let softBlock := (secGet sections "softtext_pass".data).getD []
  let topFull := lines.take 14
  (if !vendorBlock.isEmpty then
    [("vendor_pass".data, lowerS (joinSep "\n".data vendorBlock))] else []) ++
  (if !softBlock.isEmpty then
    [("softtext_pass".data, lowerS (joinSep "\n".data softBlock))] else []) ++
  [("top_full".data, lowerS (joinSep "\n".data topFull)),
   ("full".data, lowerS (joinSep "\n".data lines))]

/-- The alias-match stage of `_extract_vendor` (lines 472–585): `some`
carries the returned `(vendor, confidence, reasoning, source)` and `none`
means the code falls through to the labeled-line and heuristic tiers. -/
def extractVendorAlias (lines : List Chars) (sections : List (Chars × List Chars)) :
    Option (Chars × ℚ × Chars × Chars) :=
  if lines.isEmpty then Option.none
  else
    let best := vendorSpacesLoop
      { vendor := Option.none, score := 0, aliasName := Option.none, src := Option.none }
      (vendorSearchSpaces lines sections)
    match best.vendor, best.aliasName, best.src with
    | Option.some canon, Option.some a, Option.some src =>
      Option.some (canon, toConf100 best.score,
        "Matched vendor alias \x27".data ++ a ++ "\x27 in ".data ++ src ++ ".".data, src)
    | _, _, _ => Option.none

/-! ## `parser_service.py` — date normalization (lines 785–808) -/

/-- The date-pattern families of `_DATE_PATTERNS`. -/
inductive DTag where
  | mdySlash
  | ymdDash
  | monDY
  | dMonY
deriving DecidableEq

/-- The two-digit-year pivot of `_normalize_date_match`:
`if y < 100: y = 2000 + y if y <= 68 else 1900 + y`. -/
def expandYear (y : ℕ) : ℕ :=
  if y < 100 then (if y ≤ 68 then 2000 + y else 1900 + y) else y

/-- Gregorian leap year (as `datetime` uses). -/
def isLeap (y : ℕ) : Bool := (y % 4 = 0 && y % 100 ≠ 0) || y % 400 = 0

/-- Days in a month (as `datetime` validates). -/
def daysInMonth (y m : ℕ) : ℕ :=
  if m = 2 then (if isLeap y then 29 else 28)
  else if m = 4 ∨ m = 6 ∨ m = 9 ∨ m = 11 then 30
  else 31

/-- `datetime(y, mo, d)` succeeds exactly on these arguments
(`MINYEAR = 1`, `MAXYEAR = 9999`). -/
def validDate (y m d : ℕ) : Bool :=
  1 ≤ y && y ≤ 9999 && 1 ≤ m && m ≤ 12 && 1 ≤ d && d ≤ daysInMonth y m

/-- `date.isoformat()`: `YYYY-MM-DD`, zero padded. -/
def isoFmt (y m d : ℕ) : Chars :=
  padNat 4 y ++ "-".data ++ padNat 2 m ++ "-".data ++ padNat 2 d

/-- `_MONTHS.get(key)` restricted to 3-character keys — `mon_raw[:3]` always
has 3 characters, so only these entries of the table are reachable. -/
def monthsLookup (key : Chars) : Option ℕ :=
  if key = "jan".data then Option.some 1
  else if key = "feb".data then Option.some 2
  else if key = "mar".data then Option.some 3
  else if key = "apr".data then Option.some 4
  else if key = "may".data then Option.some 5
  else if key = "jun".data then Option.some 6
  else if key = "jul".data then Option.some 7
  else if key = "aug".data then Option.some 8
  else if key = "sep".data then Option.some 9
  else if key = "oct".data then Option.some 10
  else if key = "nov".data then Option.some 11
  else if key = "dec".data then Option.some 12
  else Option.none

/-- Python `str.strip('.')`. -/
def stripDots (s : Chars) : Chars :=
  ((s.dropWhile (· = '.')).reverse.dropWhile (· = '.')).reverse

/-- `_normalize_date_match(m, tag)` (lines 785–808) on the captured groups:
`y`, `mo`, `d` are the `int(...)` values of the numeric groups and `monRaw`
the month-name group (empty for the numeric tags, where `mo` is used).
Every failure (including invalid calendar dates) is `None`. -/
def normalizeDateMatch (tag : DTag) (y0 mo0 d : ℕ) (monRaw : Chars) : Option Chars :=
  match tag with
  | DTag.mdySlash | DTag.ymdDash =>
    let y := expandYear y0
    if validDate y mo0 d then Option.some (isoFmt y mo0 d) else Option.none
  | DTag.monDY | DTag.dMonY =>
    let y := expandYear y0
    let monKey := (stripDots (lowerS monRaw)).take 3
    match monthsLookup monKey with
    | Option.some mo =>
      if validDate y mo d then Option.some (isoFmt y mo d) else Option.none
    | Option.none => Option.none

/-! ## `app/categories/` — classification tables and cascade -/

/-- `VENDOR_CATEGORY_MAP` (app/categories/mappings.py).  Python dict display semantics: a repeated key keeps its first position with its last value. -/
def vendorCategoryMap : List (Chars × Chars) :=
  [("AutoZone".data, "Car & Truck".data),
  ("Advance Auto Parts".data, "Car & Truck".data),
  ("O\x27Reilly Auto Parts".data, "Car & Truck".data),
  ("NAPA Auto Parts".data, "Car & Truck".data),
  ("Pep Boys".data, "Car & Truck".data),
  ("Autozone".data, "Car & Truck".data),
  ("O\x27Reilly".data, "Car & Truck".data),
  ("NAPA".data, "Car & Truck".data),
  ("Jiffy Lube".data, "Car & Truck".data),
  ("Valvoline".data, "Car & Truck".data),
  ("Meineke".data, "Car & Truck".data),
  ("Midas".data, "Car & Truck".data),
  ("Firestone".data, "Car & Truck".data),
  ("Goodyear".data, "Car & Truck".data),
  ("Discount Tire".data, "Car & Truck".data),
  ("Tire Discounters".data, "Car & Truck".data),
  ("Monro".data, "Car & Truck".data),
  ("Mavis Tire".data, "Car & Truck".data),
  ("Big O Tires".data, "Car & Truck".data),
  ("Les Schwab".data, "Car & Truck".data),
  ("Pep Boys Auto".data, "Car & Truck".data),
  ("Aamco".data, "Car & Truck".data),
  ("Christian Brothers Automotive".data, "Car & Truck".data),
  ("Grease Monkey".data, "Car & Truck".data),
  ("Take 5 Oil Change".data, "Car & Truck".data),
  ("Valvoline Instant Oil Change".data, "Car & Truck".data),
  ("Precision Tune Auto Care".data, "Car & Truck".data),
  ("Tuffy".data, "Car & Truck".data),
  ("Mr. Tire".data, "Car & Truck".data),
  ("Caliber Collision".data, "Car & Truck".data),
  ("Gerber Collision".data, "Car & Truck".data),
  ("Maaco".data, "Car & Truck".data),
  ("ABRA Auto".data, "Car & Truck".data),
  ("Service King".data, "Car & Truck".data),
  ("Harbor Freight".data, "Car & Truck".data),
  ("Northern Tool".data, "Car & Truck".data),
  ("Tractor Supply".data, "Equipment".data),
  ("Tractor Supply Co".data, "Car & Truck".data),
  ("TSC".data, "Car & Truck".data),
  ("Car Wash".data, "Car & Truck".data),
  ("Auto Spa".data, "Car & Truck".data),
  ("Detail Shop".data, "Car & Truck".data),
  ("Wash & Go".data, "Car & Truck".data),
  ("Shell".data, "Fuel".data),
  ("Exxon".data, "Fuel".data),
  ("Chevron".data, "Fuel".data),
  ("BP".data, "Fuel".data),
  ("Mobil".data, "Fuel".data),
  ("Texaco".data, "Fuel".data),
  ("Sunoco".data, "Fuel".data),
  ("Marathon".data, "Fuel".data),
  ("Speedway".data, "Fuel".data),
  ("Circle K".data, "Fuel".data),
  ("7-Eleven".data, "Fuel".data),
  ("Wawa".data, "Fuel".data),
  ("Sheetz".data, "Fuel".data),
  ("QuikTrip".data, "Fuel".data),
  ("RaceTrac".data, "Fuel".data),
  ("Love\x27s".data, "Fuel".data),
  ("Pilot".data, "Fuel".data),
  ("Flying J".data, "Fuel".data),
  ("TA".data, "Fuel".data),
  ("Travel Centers of America".data, "Fuel".data),
  ("Petro".data, "Fuel".data),
  ("Costco Gas".data, "Fuel".data),
  ("Sam\x27s Club Gas".data, "Fuel".data),
  ("BJ\x27s Gas".data, "Fuel".data),
  ("Arco".data, "Fuel".data),
  ("Phillips 66".data, "Fuel".data),
  ("Conoco".data, "Fuel".data),
  ("Valero".data, "Fuel".data),
  ("Casey\x27s".data, "Fuel".data),
  ("GetGo".data, "Fuel".data),
  ("Kum & Go".data, "Fuel".data),
  ("Kwik Trip".data, "Fuel".data),
  ("Murphy USA".data, "Fuel".data),
  ("Gulf".data, "Fuel".data),
  ("Citgo".data, "Fuel".data),
  ("Home Depot".data, "Repairs & Maintenance".data),
  ("Lowe\x27s".data, "Repairs & Maintenance".data),
  ("Menards".data, "Repairs & Maintenance".data),
  ("Ace Hardware".data, "Repairs & Maintenance".data),
  ("True Value".data, "Repairs & Maintenance".data),
  ("Do it Best".data, "Repairs & Maintenance".data),
  ("SiteOne Landscape Supply".data, "Supplies".data),
  ("SiteOne".data, "Supplies".data),
  ("Ewing Irrigation".data, "Supplies".data),
  ("Horizon Distributors".data, "Supplies".data),
  ("BrightView".data, "Supplies".data),
  ("John Deere Landscapes".data, "Supplies".data),
  ("Target Specialty Products".data, "Supplies".data),
  ("Pike Nursery".data, "Supplies".data),
  ("Armstrong Garden Centers".data, "Supplies".data),
  ("Green Thumb Nursery".data, "Supplies".data),
  ("Calloway\x27s Nursery".data, "Supplies".data),
  ("The Home Depot Pro".data, "Equipment".data),
  ("Rural King".data, "Equipment".data),
  ("Blain\x27s Farm & Fleet".data, "Equipment".data),
  ("Fleet Farm".data, "Equipment".data),
  ("Mulch Express".data, "Supplies".data),
  ("Landscape Supply".data, "Supplies".data),
  ("Stone Center".data, "Supplies".data),
  ("Sprinkler Warehouse".data, "Supplies".data),
  ("Irrigation Direct".data, "Supplies".data),
  ("Nutrien".data, "Supplies".data),
  ("Helena Chemical".data, "Supplies".data),
  ("Wilbur-Ellis".data, "Supplies".data),
  ("Uline".data, "Supplies".data),
  ("Grainger".data, "Supplies".data),
  ("HD Supply".data, "Supplies".data),
  ("Imperial Dade".data, "Supplies".data),
  ("Bunzl".data, "Supplies".data),
  ("Veritiv".data, "Supplies".data),
  ("Sysco".data, "Meals".data),
  ("US Foods".data, "Meals".data),
  ("Walmart".data, "Supplies".data),
  ("Target".data, "Supplies".data),
  ("Costco".data, "Supplies".data),
  ("Sam\x27s Club".data, "Supplies".data),
  ("BJ\x27s Wholesale Club".data, "Supplies".data),
  ("Dollar Tree".data, "Supplies".data),
  ("Dollar General".data, "Supplies".data),
  ("Family Dollar".data, "Supplies".data),
  ("Ecolab".data, "Supplies".data),
  ("Cintas".data, "Supplies".data),
  ("Aramark".data, "Supplies".data),
  ("Tennant".data, "Equipment".data),
  ("Nilfisk".data, "Equipment".data),
  ("Zep".data, "Supplies".data),
  ("Simple Green".data, "Supplies".data),
  ("Party City".data, "Supplies".data),
  ("Oriental Trading".data, "Supplies".data),
  ("Michaels".data, "Supplies".data),
  ("Hobby Lobby".data, "Supplies".data),
  ("Joann".data, "Supplies".data),
  ("AC Moore".data, "Supplies".data),
  ("Grand Rental Station".data, "Rent".data),
  ("United Rentals".data, "Equipment".data),
  ("Sunbelt Rentals".data, "Equipment".data),
  ("Hertz Equipment Rental".data, "Rent".data),
  ("Home Depot Rental".data, "Rent".data),
  ("Lowe\x27s Tool Rental".data, "Equipment".data),
  ("Party Rental".data, "Rent".data),
  ("Classic Party Rentals".data, "Rent".data),
  ("Mahaffey".data, "Rent".data),
  ("CORT Events".data, "Rent".data),
  ("AFR Furniture Rental".data, "Rent".data),
  ("Gordon Food Service".data, "Meals".data),
  ("Restaurant Depot".data, "Supplies".data),
  ("Cash & Carry".data, "Supplies".data),
  ("Chef\x27s Store".data, "Supplies".data),
  ("Webstaurant Store".data, "Supplies".data),
  ("Flower Wholesale".data, "Supplies".data),
  ("FiftyFlowers".data, "Supplies".data),
  ("Blooms by the Box".data, "Supplies".data),
  ("Accent Decor".data, "Supplies".data),
  ("Linen Tablecloth".data, "Supplies".data),
  ("Smarty Had a Party".data, "Supplies".data),
  ("BBJ Linen".data, "Rent".data),
  ("Guitar Center".data, "Equipment".data),
  ("Best Buy".data, "Equipment".data),
  ("B&H Photo".data, "Equipment".data),
  ("Staples".data, "Office Supplies".data),
  ("Office Depot".data, "Office Supplies".data),
  ("OfficeMax".data, "Office Supplies".data),
  ("FedEx Office".data, "Office Supplies".data),
  ("UPS Store".data, "Office Supplies".data),
  ("Amazon Business".data, "Office Supplies".data),
  ("Amazon".data, "Supplies".data),
  ("Starbucks".data, "Meals".data),
  ("McDonald\x27s".data, "Meals".data),
  ("Subway".data, "Meals".data),
  ("Burger King".data, "Meals".data),
  ("Wendy\x27s".data, "Meals".data),
  ("Taco Bell".data, "Meals".data),
  ("Chick-fil-A".data, "Meals".data),
  ("Dunkin\x27".data, "Meals".data),
  ("Dunkin Donuts".data, "Meals".data),
  ("Panera".data, "Meals".data),
  ("Panera Bread".data, "Meals".data),
  ("Chipotle".data, "Meals".data),
  ("Five Guys".data, "Meals".data),
  ("Jimmy John\x27s".data, "Meals".data),
  ("Jersey Mike\x27s".data, "Meals".data),
  ("Firehouse Subs".data, "Meals".data),
  ("Arby\x27s".data, "Meals".data),
  ("KFC".data, "Meals".data),
  ("Popeyes".data, "Meals".data),
  ("Sonic".data, "Meals".data),
  ("Jack in the Box".data, "Meals".data),
  ("Carl\x27s Jr".data, "Meals".data),
  ("Hardee\x27s".data, "Meals".data),
  ("Whataburger".data, "Meals".data),
  ("In-N-Out".data, "Meals".data),
  ("Shake Shack".data, "Meals".data),
  ("Culver\x27s".data, "Meals".data),
  ("Raising Cane\x27s".data, "Meals".data),
  ("Zaxby\x27s".data, "Meals".data),
  ("Wingstop".data, "Meals".data),
  ("Buffalo Wild Wings".data, "Meals".data),
  ("Pizza Hut".data, "Meals".data),
  ("Domino\x27s".data, "Meals".data),
  ("Papa John\x27s".data, "Meals".data),
  ("Little Caesars".data, "Meals".data),
  ("Tim Hortons".data, "Meals".data),
  ("Peet\x27s Coffee".data, "Meals".data),
  ("Caribou Coffee".data, "Meals".data),
  ("Dutch Bros".data, "Meals".data),
  ("Applebee\x27s".data, "Meals".data),
  ("Chili\x27s".data, "Meals".data),
  ("Olive Garden".data, "Meals".data),
  ("Red Lobster".data, "Meals".data),
  ("Outback Steakhouse".data, "Meals".data),
  ("Texas Roadhouse".data, "Meals".data),
  ("LongHorn Steakhouse".data, "Meals".data),
  ("Cracker Barrel".data, "Meals".data),
  ("IHOP".data, "Meals".data),
  ("Denny\x27s".data, "Meals".data),
  ("Waffle House".data, "Meals".data),
  ("Bob Evans".data, "Meals".data),
  ("Perkins".data, "Meals".data),
  ("Uber Eats".data, "Meals".data),
  ("DoorDash".data, "Meals".data),
  ("Grubhub".data, "Meals".data),
  ("Postmates".data, "Meals".data),
  ("Seamless".data, "Meals".data),
  ("Marriott".data, "Travel".data),
  ("Hilton".data, "Travel".data),
  ("Holiday Inn".data, "Travel".data),
  ("Hampton Inn".data, "Travel".data),
  ("Hyatt".data, "Travel".data),
  ("Best Western".data, "Travel".data),
  ("La Quinta".data, "Travel".data),
  ("Comfort Inn".data, "Travel".data),
  ("Quality Inn".data, "Travel".data),
  ("Motel 6".data, "Travel".data),
  ("Super 8".data, "Travel".data),
  ("Days Inn".data, "Travel".data),
  ("Red Roof Inn".data, "Travel".data),
  ("Extended Stay".data, "Travel".data),
  ("Residence Inn".data, "Travel".data),
  ("Courtyard".data, "Travel".data),
  ("Fairfield Inn".data, "Travel".data),
  ("SpringHill Suites".data, "Travel".data),
  ("Sheraton".data, "Travel".data),
  ("Westin".data, "Travel".data),
  ("Doubletree".data, "Travel".data),
  ("Embassy Suites".data, "Travel".data),
  ("Homewood Suites".data, "Travel".data),
  ("Candlewood Suites".data, "Travel".data),
  ("Staybridge Suites".data, "Travel".data),
  ("Airbnb".data, "Travel".data),
  ("VRBO".data, "Travel".data),
  ("HomeAway".data, "Travel".data),
  ("American Airlines".data, "Travel".data),
  ("Delta".data, "Travel".data),
  ("United".data, "Travel".data),
  ("Southwest".data, "Travel".data),
  ("JetBlue".data, "Travel".data),
  ("Alaska Airlines".data, "Travel".data),
  ("Spirit".data, "Travel".data),
  ("Frontier".data, "Utilities".data),
  ("Allegiant".data, "Travel".data),
  ("Uber".data, "Travel".data),
  ("Lyft".data, "Travel".data),
  ("Via".data, "Travel".data),
  ("Enterprise".data, "Travel".data),
  ("Hertz".data, "Travel".data),
  ("Budget".data, "Travel".data),
  ("Avis".data, "Travel".data),
  ("National".data, "Travel".data),
  ("Alamo".data, "Travel".data),
  ("Dollar".data, "Travel".data),
  ("Thrifty".data, "Travel".data),
  ("Sixt".data, "Travel".data),
  ("Zipcar".data, "Travel".data),
  ("Turo".data, "Travel".data),
  ("ParkWhiz".data, "Travel".data),
  ("SpotHero".data, "Travel".data),
  ("Park Mobile".data, "Travel".data),
  ("E-ZPass".data, "Travel".data),
  ("SunPass".data, "Travel".data),
  ("State Farm".data, "Insurance".data),
  ("Geico".data, "Insurance".data),
  ("Progressive".data, "Insurance".data),
  ("Allstate".data, "Insurance".data),
  ("Farmers".data, "Insurance".data),
  ("USAA".data, "Insurance".data),
  ("Liberty Mutual".data, "Insurance".data),
  ("Nationwide".data, "Insurance".data),
  ("Travelers".data, "Insurance".data),
  ("American Family".data, "Insurance".data),
  ("Erie".data, "Insurance".data),
  ("Auto-Owners".data, "Insurance".data),
  ("The Hartford".data, "Insurance".data),
  ("Safeco".data, "Insurance".data),
  ("Mercury".data, "Insurance".data),
  ("Electric Company".data, "Utilities".data),
  ("Power Company".data, "Utilities".data),
  ("Water Department".data, "Utilities".data),
  ("Gas Company".data, "Utilities".data),
  ("Internet Provider".data, "Utilities".data),
  ("Phone Service".data, "Utilities".data),
  ("Verizon".data, "Utilities".data),
  ("AT&T".data, "Utilities".data),
  ("T-Mobile".data, "Utilities".data),
  ("Sprint".data, "Utilities".data),
  ("Comcast".data, "Utilities".data),
  ("Xfinity".data, "Utilities".data),
  ("Spectrum".data, "Utilities".data),
  ("Cox".data, "Utilities".data),
  ("Optimum".data, "Utilities".data),
  ("CenturyLink".data, "Utilities".data),
  ("Bank Fee".data, "Bank Fees".data),
  ("Service Charge".data, "Bank Fees".data),
  ("Overdraft Fee".data, "Bank Fees".data),
  ("Wire Fee".data, "Bank Fees".data),
  ("ATM Fee".data, "Bank Fees".data),
  ("Monthly Fee".data, "Bank Fees".data),
  ("Maintenance Fee".data, "Bank Fees".data),
  ("Google Ads".data, "Advertising & Marketing".data),
  ("Facebook Ads".data, "Advertising & Marketing".data),
  ("Meta Ads".data, "Advertising & Marketing".data),
  ("Instagram Ads".data, "Advertising & Marketing".data),
  ("LinkedIn Ads".data, "Advertising & Marketing".data),
  ("Twitter Ads".data, "Advertising & Marketing".data),
  ("X Ads".data, "Advertising & Marketing".data),
  ("Yelp".data, "Advertising & Marketing".data),
  ("Yelp Ads".data, "Advertising & Marketing".data),
  ("Angie\x27s List".data, "Advertising & Marketing".data),
  ("Angi".data, "Advertising & Marketing".data),
  ("HomeAdvisor".data, "Advertising & Marketing".data),
  ("Thumbtack".data, "Advertising & Marketing".data),
  ("Porch".data, "Advertising & Marketing".data),
  ("Bark".data, "Advertising & Marketing".data),
  ("Nextdoor".data, "Advertising & Marketing".data),
  ("Nextdoor Ads".data, "Advertising & Marketing".data),
  ("Constant Contact".data, "Advertising & Marketing".data),
  ("Mailchimp".data, "Advertising & Marketing".data),
  ("HubSpot".data, "Advertising & Marketing".data),
  ("ActiveCampaign".data, "Advertising & Marketing".data),
  ("SendGrid".data, "Advertising & Marketing".data),
  ("Vistaprint".data, "Advertising & Marketing".data),
  ("Moo".data, "Advertising & Marketing".data),
  ("GotPrint".data, "Advertising & Marketing".data),
  ("PrintRunner".data, "Advertising & Marketing".data),
  ("QuickBooks".data, "Software & Subscriptions".data),
  ("Quickbooks Online".data, "Software & Subscriptions".data),
  ("Xero".data, "Software & Subscriptions".data),
  ("FreshBooks".data, "Software & Subscriptions".data),
  ("Wave".data, "Software & Subscriptions".data),
  ("Gusto".data, "Software & Subscriptions".data),
  ("ADP".data, "Software & Subscriptions".data),
  ("Paychex".data, "Software & Subscriptions".data),
  ("Square".data, "Software & Subscriptions".data),
  ("Stripe".data, "Software & Subscriptions".data),
  ("PayPal".data, "Software & Subscriptions".data),
  ("Venmo".data, "Software & Subscriptions".data),
  ("Zoom".data, "Software & Subscriptions".data),
  ("Microsoft 365".data, "Software & Subscriptions".data),
  ("Office 365".data, "Software & Subscriptions".data),
  ("Google Workspace".data, "Software & Subscriptions".data),
  ("G Suite".data, "Software & Subscriptions".data),
  ("Dropbox".data, "Software & Subscriptions".data),
  ("Adobe".data, "Software & Subscriptions".data),
  ("Adobe Creative Cloud".data, "Software & Subscriptions".data),
  ("Canva".data, "Software & Subscriptions".data),
  ("Slack".data, "Software & Subscriptions".data),
  ("Asana".data, "Software & Subscriptions".data),
  ("Monday.com".data, "Software & Subscriptions".data),
  ("Trello".data, "Software & Subscriptions".data),
  ("ClickUp".data, "Software & Subscriptions".data),
  ("Notion".data, "Software & Subscriptions".data),
  ("Salesforce".data, "Software & Subscriptions".data),
  ("Shopify".data, "Software & Subscriptions".data),
  ("Wix".data, "Software & Subscriptions".data),
  ("Squarespace".data, "Software & Subscriptions".data),
  ("GoDaddy".data, "Software & Subscriptions".data),
  ("Bluehost".data, "Software & Subscriptions".data),
  ("HostGator".data, "Software & Subscriptions".data),
  ("AWS".data, "Software & Subscriptions".data),
  ("Amazon Web Services".data, "Software & Subscriptions".data),
  ("Azure".data, "Software & Subscriptions".data),
  ("Google Cloud".data, "Software & Subscriptions".data),
  ("Heroku".data, "Software & Subscriptions".data),
  ("DigitalOcean".data, "Software & Subscriptions".data),
  ("Netlify".data, "Software & Subscriptions".data),
  ("Vercel".data, "Software & Subscriptions".data),
  ("Herc Rentals".data, "Equipment".data),
  ("BigRentz".data, "Equipment".data),
  ("Cat Rental".data, "Equipment".data),
  ("Caterpillar Rental".data, "Equipment".data),
  ("Home Depot Tool Rental".data, "Equipment".data),
  ("Indeed".data, "Contract Labor".data),
  ("ZipRecruiter".data, "Contract Labor".data),
  ("LinkedIn".data, "Contract Labor".data),
  ("Monster".data, "Contract Labor".data),
  ("CareerBuilder".data, "Contract Labor".data),
  ("Upwork".data, "Contract Labor".data),
  ("Fiverr".data, "Contract Labor".data),
  ("Freelancer".data, "Contract Labor".data),
  ("TaskRabbit".data, "Contract Labor".data),
  ("Wonolo".data, "Contract Labor".data),
  ("Manpower".data, "Contract Labor".data),
  ("Kelly Services".data, "Contract Labor".data),
  ("Robert Half".data, "Contract Labor".data),
  ("Randstad".data, "Contract Labor".data),
  ("Adecco".data, "Contract Labor".data)]

/-- `KEYWORD_CATEGORY_MAP` (app/categories/mappings.py). -/
def keywordCategoryMap : List (Chars × Chars) :=
  [("fuel".data, "Fuel".data),
  ("gas".data, "Fuel".data),
  ("gasoline".data, "Fuel".data),
  ("diesel".data, "Fuel".data),
  ("pump".data, "Fuel".data),
  ("autozone".data, "Car & Truck".data),
  ("auto zone".data, "Car & Truck".data),
  ("advance auto".data, "Car & Truck".data),
  ("o\x27reilly".data, "Car & Truck".data),
  ("oreilly".data, "Car & Truck".data),
  ("tires".data, "Car & Truck".data),
  ("tire".data, "Car & Truck".data),
  ("oil change".data, "Car & Truck".data),
  ("brake".data, "Car & Truck".data),
  ("battery".data, "Car & Truck".data),
  ("wiper".data, "Car & Truck".data),
  ("alignment".data, "Car & Truck".data),
  ("office".data, "Office Supplies".data),
  ("staples".data, "Office Supplies".data),
  ("paper".data, "Office Supplies".data),
  ("printer".data, "Office Supplies".data),
  ("ink".data, "Office Supplies".data),
  ("toner".data, "Office Supplies".data),
  ("notebook".data, "Office Supplies".data),
  ("pens".data, "Office Supplies".data),
  ("post-it".data, "Office Supplies".data),
  ("subscription".data, "Software & Subscriptions".data),
  ("saas".data, "Software & Subscriptions".data),
  ("software".data, "Software & Subscriptions".data),
  ("monthly".data, "Software & Subscriptions".data),
  ("annual".data, "Software & Subscriptions".data),
  ("stripe".data, "Software & Subscriptions".data),
  ("quickbooks".data, "Software & Subscriptions".data),
  ("adobe".data, "Software & Subscriptions".data),
  ("microsoft 365".data, "Software & Subscriptions".data),
  ("google workspace".data, "Software & Subscriptions".data),
  ("aws".data, "Software & Subscriptions".data),
  ("azure".data, "Software & Subscriptions".data),
  ("gcp".data, "Software & Subscriptions".data),
  ("dropbox".data, "Software & Subscriptions".data),
  ("notion".data, "Software & Subscriptions".data),
  ("supplies".data, "Supplies".data),
  ("supply".data, "Supplies".data),
  ("inventory".data, "Supplies".data),
  ("restock".data, "Supplies".data),
  ("materials".data, "Supplies".data),
  ("repair".data, "Repairs & Maintenance".data),
  ("maintenance".data, "Repairs & Maintenance".data),
  ("service".data, "Repairs & Maintenance".data),
  ("labor".data, "Repairs & Maintenance".data),
  ("parts".data, "Repairs & Maintenance".data),
  ("fix".data, "Repairs & Maintenance".data),
  ("replace".data, "Repairs & Maintenance".data),
  ("equipment".data, "Equipment".data),
  ("tool".data, "Equipment".data),
  ("tools".data, "Equipment".data),
  ("machine".data, "Equipment".data),
  ("hardware".data, "Equipment".data),
  ("laptop".data, "Equipment".data),
  ("computer".data, "Equipment".data),
  ("monitor".data, "Equipment".data),
  ("router".data, "Equipment".data),
  ("marketing".data, "Advertising & Marketing".data),
  ("advertising".data, "Advertising & Marketing".data),
  ("ads".data, "Advertising & Marketing".data),
  ("facebook ads".data, "Advertising & Marketing".data),
  ("google ads".data, "Advertising & Marketing".data),
  ("promotion".data, "Advertising & Marketing".data),
  ("sponsor".data, "Advertising & Marketing".data),
  ("restaurant".data, "Meals".data),
  ("meal".data, "Meals".data),
  ("lunch".data, "Meals".data),
  ("dinner".data, "Meals".data),
  ("breakfast".data, "Meals".data),
  ("cafe".data, "Meals".data),
  ("coffee".data, "Meals".data),
  ("starbucks".data, "Meals".data),
  ("mcdonald".data, "Meals".data),
  ("subway".data, "Meals".data),
  ("doordash".data, "Meals".data),
  ("uber eats".data, "Meals".data),
  ("hotel".data, "Travel".data),
  ("airbnb".data, "Travel".data),
  ("flight".data, "Travel".data),
  ("airline".data, "Travel".data),
  ("uber".data, "Travel".data),
  ("lyft".data, "Travel".data),
  ("taxi".data, "Travel".data),
  ("rental car".data, "Travel".data),
  ("parking".data, "Travel".data),
  ("toll".data, "Travel".data),
  ("electric".data, "Utilities".data),
  ("water".data, "Utilities".data),
  ("internet".data, "Utilities".data),
  ("wifi".data, "Utilities".data),
  ("utility".data, "Utilities".data),
  ("phone bill".data, "Utilities".data),
  ("verizon".data, "Utilities".data),
  ("at&t".data, "Utilities".data),
  ("t-mobile".data, "Utilities".data),
  ("insurance".data, "Insurance".data),
  ("premium".data, "Insurance".data),
  ("policy".data, "Insurance".data),
  ("rent".data, "Rent".data),
  ("lease".data, "Rent".data),
  ("fee".data, "Bank Fees".data),
  ("service charge".data, "Bank Fees".data),
  ("overdraft".data, "Bank Fees".data),
  ("wire fee".data, "Bank Fees".data),
  ("atm fee".data, "Bank Fees".data)]

/-- `BUSINESS_TYPE_DEFAULTS` (app/categories/mappings.py). -/
def businessTypeDefaults : List (Chars × Chars) :=
  [("realtor".data, "Advertising & Marketing".data),
  ("real estate agent".data, "Advertising & Marketing".data),
  ("contractor".data, "Supplies".data),
  ("general contractor".data, "Supplies".data),
  ("electrician".data, "Supplies".data),
  ("plumber".data, "Supplies".data),
  ("hvac".data, "Supplies".data),
  ("carpenter".data, "Supplies".data),
  ("roofer".data, "Supplies".data),
  ("painter".data, "Supplies".data),
  ("mechanic".data, "Car & Truck".data),
  ("auto repair".data, "Car & Truck".data),
  ("auto mechanic".data, "Car & Truck".data),
  ("mobile mechanic".data, "Car & Truck".data),
  ("cleaner".data, "Supplies".data),
  ("cleaning service".data, "Supplies".data),
  ("janitorial".data, "Supplies".data),
  ("maid service".data, "Supplies".data),
  ("house cleaner".data, "Supplies".data),
  ("commercial cleaner".data, "Supplies".data),
  ("landscaper".data, "Supplies".data),
  ("lawn care".data, "Supplies".data),
  ("groundskeeper".data, "Supplies".data),
  ("tree service".data, "Supplies".data),
  ("gardener".data, "Supplies".data),
  ("landscape maintenance".data, "Supplies".data),
  ("event coordinator".data, "Supplies".data),
  ("event planner".data, "Supplies".data),
  ("wedding planner".data, "Supplies".data),
  ("party planner".data, "Supplies".data),
  ("consultant".data, "Software & Subscriptions".data),
  ("freelancer".data, "Software & Subscriptions".data),
  ("developer".data, "Software & Subscriptions".data),
  ("designer".data, "Software & Subscriptions".data),
  ("photographer".data, "Equipment".data),
  ("videographer".data, "Equipment".data),
  ("food".data, "Supplies".data),
  ("restaurant".data, "Supplies".data),
  ("catering".data, "Supplies".data),
  ("food truck".data, "Supplies".data),
  ("bakery".data, "Supplies".data),
  ("cafe".data, "Supplies".data)]

/-- The engine's curated `KEYWORDS` buckets (app/categories/engine.py,
lines 48–95), in dict order. -/
def engineKeywords : List (Chars × List Chars) :=
  [("Fuel".data, ["fuel".data, "gas".data, "gasoline".data, "diesel".data, "pump".data,
      "shell".data, "exxon".data, "chevron".data, "bp".data, "sunoco".data]),
   ("Car & Truck".data, ["autozone".data, "auto zone".data, "advance auto".data,
      "o\x27reilly".data, "oreilly".data, "tires".data, "tire".data, "oil change".data,
      "brake".data, "battery".data, "wiper".data, "alignment".data]),
   ("Office Supplies".data, ["office".data, "staples".data, "paper".data, "printer".data,
      "ink".data, "toner".data, "notebook".data, "pens".data, "post-it".data]),
   ("Software & Subscriptions".data, ["subscription".data, "saas".data, "software".data,
      "monthly".data, "annual".data, "stripe".data, "quickbooks".data, "adobe".data,
      "microsoft 365".data, "google workspace".data, "aws".data, "azure".data,
      "gcp".data, "dropbox".data, "notion".data]),
   ("Supplies".data, ["supplies".data, "supply".data, "inventory".data, "restock".data,
      "materials".data]),
   ("Repairs & Maintenance".data, ["repair".data, "maintenance".data, "service".data,
      "labor".data, "parts".data, "fix".data, "replace".data]),
   ("Equipment".data, ["equipment".data, "tool".data, "tools".data, "machine".data,
      "hardware".data, "laptop".data, "computer".data, "monitor".data, "router".data]),
   ("Advertising & Marketing".data, ["marketing".data, "advertising".data, "ads".data,
      "facebook ads".data, "google ads".data, "promotion".data, "sponsor".data]),
   ("Meals".data, ["restaurant".data, "meal".data, "lunch".data, "dinner".data,
      "breakfast".data, "cafe".data, "coffee".data, "starbucks".data, "mcdonald".data,
      "subway".data, "doordash".data, "uber eats".data]),
   ("Travel".data, ["hotel".data, "airbnb".data, "flight".data, "airline".data,
      "uber".data, "lyft".data, "taxi".data, "rental car".data, "parking".data,
      "toll".data]),
   ("Utilities".data, ["electric".data, "water".data, "internet".data, "wifi".data,
      "utility".data, "phone bill".data, "verizon".data, "at&t".data, "t-mobile".data]),
   ("Insurance".data, ["insurance".data, "premium".data, "policy".data]),
   ("Rent".data, ["rent".data, "lease".data]),
   ("Bank Fees".data, ["fee".data, "service charge".data, "overdraft".data,
      "wire fee".data, "atm fee".data])]

/-- The engine's local `BUSINESS_TYPE_HINTS` (app/categories/engine.py,
lines 99–112).  This module-level assignment shadows the table imported from
`app/categories/mappings.py`, so these three business types are the only
ones with live hints. -/
def engineBusinessTypeHints : List (Chars × List (Chars × List Chars)) :=
  [("realtor".data,
    [("Advertising & Marketing".data, ["listing".data, "mls".data, "open house".data,
        "staging".data, "sign".data, "flyer".data]),
     ("Travel".data, ["showing".data, "client meeting".data])]),
   ("contractor".data,
    [("Supplies".data, ["lumber".data, "drywall".data, "concrete".data, "paint".data,
        "tile".data, "hardware".data]),
     ("Equipment".data, ["drill".data, "saw".data, "compressor".data])]),
   ("food".data,
    [("Supplies".data, ["ingredients".data, "produce".data, "meat".data, "dairy".data]),
     ("Equipment".data, ["oven".data, "mixer".data, "fridge".data])])]

/-- `_norm(s)` shared by `rules.py` and `engine.py`: lowercase, strip,
collapse inner whitespace runs to single spaces. -/
def catNorm (s : Option Chars) : Chars :=
  match s with
  | Option.none => []
  | Option.some s0 => collapseWs false (stripS (lowerS s0))

/-- Result shape of the rules layer and the engine
(`category`/`confidence`/`reasoning`). -/
structure CatHit where
  category : Option Chars
  confidence : ℚ
  reasoning : Chars
deriving DecidableEq

/-- `rule_match_vendor(vendor)` (app/categories/rules.py, lines 34–67):
collect every map key whose normalized form is a substring of the normalized
vendor, then pick the longest key (Python's stable sort keeps dict order on
ties). -/
def ruleMatchVendor (vendor : Option Chars) : Option CatHit :=
  match vendor with
  | Option.none => Option.none
  | Option.some v0 =>
    if v0.isEmpty then Option.none
    else
      let vendorNorm := catNorm (Option.some v0)
      let hits := vendorCategoryMap.filter
        (fun (k, _) => isSubstr (catNorm (Option.some k)) vendorNorm)
      match hits.foldl
        (fun best (k, cat) =>
          match best with
          | Option.none => Option.some (k, cat)
          | Option.some (bk, _) => if k.length > bk.length then Option.some (k, cat) else best)
        Option.none with
      | Option.some (bestKey, bestCat) =>
        Option.some
          { category := Option.some bestCat
            confidence := qc 95
            reasoning := "Vendor mapping matched: \x27".data ++ bestKey ++
              "\x27 in \x27".data ++ v0 ++ "\x27".data }
      | Option.none => Option.none

/-- `rule_match_keywords(text)` (rules.py, lines 70–86): first keyword of the
map contained in the normalized text. -/
def ruleMatchKeywords (text : Option Chars) : Option CatHit :=
  let t := catNorm text
  if t.isEmpty then Option.none
  else
    (keywordCategoryMap.find? (fun (kw, _) => isSubstr kw t)).map fun (kw, cat) =>
      { category := Option.some cat, confidence := qc 80,
        reasoning := "Keyword mapping matched: \x27".data ++ kw ++ "\x27".data }

/-- `rule_match_business_default(business_type)` (rules.py, lines 89–102). -/
def ruleMatchBusinessDefault (businessType : Option Chars) : Option CatHit :=
  let bt := catNorm businessType
  if bt.isEmpty then Option.none
  else
    (businessTypeDefaults.find? (fun (k, _) => k = bt)).map fun (_, cat) =>
      { category := Option.some cat, confidence := qc 55,
        reasoning := "Business type default used: ".data ++ (businessType.getD []) }

/-- `apply_category_rules(vendor, explanation, ocr_text, business_type)`
(rules.py, lines 105–144). -/
def applyCategoryRules (vendor explanation ocrText businessType : Option Chars) : CatHit :=
  match ruleMatchVendor vendor with
  | Option.some hit => hit
  | Option.none =>
    match ruleMatchKeywords explanation with
    | Option.some hit => { hit with reasoning := "Explanation rule: ".data ++ hit.reasoning }
    | Option.none =>
      match ruleMatchKeywords ocrText with
      | Option.some hit => { hit with reasoning := "OCR rule: ".data ++ hit.reasoning }
      | Option.none =>
        match ruleMatchBusinessDefault businessType with
        | Option.some hit => hit
        | Option.none =>
          { category := Option.none, confidence := 0,
            reasoning := "No deterministic rule matched".data }

/-- `_match_bucket(text)` (engine.py, lines 123–146): per-category keyword
hit counts; the first category (in table order) with the strictly highest
positive score wins. -/
def matchBucket (text : Chars) : Option Chars :=
  if text.isEmpty then Option.none
  else
    let scores := engineKeywords.map
      (fun (cat, keys) => (cat, (keys.filter (fun kw => isSubstr kw text)).length))
    let best := scores.foldl
      (fun best (cat, sc) =>
        match best with
        | Option.none => if sc > 0 then Option.some (cat, sc) else best
        | Option.some (_, bs) => if sc > bs then Option.some (cat, sc) else best)
      Option.none
    best.map (fun (cat, _) => cat)

/-- The business-type hint stage of `suggest_category` (engine.py,
lines 172–183): for a hint-bearing business type and non-empty normalized
explanation, the first hinted category one of whose keywords occurs in the
explanation. -/
def engineHint (bt e : Chars) : Option Chars :=
  match engineBusinessTypeHints.find? (fun (k, _) => k = bt) with
  | Option.none => Option.none
  | Option.some (_, hints) =>
    if e.isEmpty then Option.none
    else
      (hints.find? (fun (_, kws) =>
        kws.any (fun k => isSubstr (catNorm (Option.some k)) e))).map
        (fun (cat, _) => cat)

/-- `suggest_category(vendor, ocr_text, explanation, business_type)`
(engine.py, lines 149–200). -/
def suggestCategory (vendor ocrText explanation businessType : Option Chars) : CatHit :=
  let v := catNorm vendor
  let t := catNorm ocrText
  let e := catNorm explanation
  let bt := catNorm businessType
  match engineHint bt e with
  | Option.some cat =>
    { category := Option.some cat, confidence := qc 90,
      reasoning := "Matched business_type=\x27".data ++ (businessType.getD []) ++
        "\x27 hint in explanation".data }
  | Option.none =>
    match matchBucket e with
    | Option.some cat =>
      { category := Option.some cat, confidence := qc 85,
        reasoning := "Matched keywords in explanation (highest priority)".data }
    | Option.none =>
      match matchBucket t with
      | Option.some cat =>
        { category := Option.some cat, confidence := qc 70,
          reasoning := "Matched keywords in OCR text".data }
      | Option.none =>
        match matchBucket v with
        | Option.some cat =>
          { category := Option.some cat, confidence := qc 60,
            reasoning := "Matched keywords in vendor".data }
        | Option.none =>
          { category := Option.none, confidence := 0,
            reasoning := "No category match found".data }

/-- Categorizer result with its source tier. -/
structure CatResult where
  category : Option Chars
  confidence : ℚ
  reasoning : Chars
  source : Chars
deriving DecidableEq

/-- `categorize_purchase(...)` (app/services/categorizer_service.py,
lines 21–65): deterministic rules first; the heuristic engine only when no
rule produced a (truthy) category. -/
def categorizePurchase (vendor ocrText explanation businessType : Option Chars) :
    CatResult :=
  let ruleHit := applyCategoryRules vendor explanation ocrText businessType
  if strTruthy ruleHit.category then
    { category := ruleHit.category, confidence := ruleHit.confidence,
      reasoning := ruleHit.reasoning, source := "rules".data }
  else
    let eng := suggestCategory vendor ocrText explanation businessType
    { category := eng.category, confidence := eng.confidence,
      reasoning := eng.reasoning, source := "engine".data }

/-! ## `parser_service.py` — the `parse_receipt` boundary (lines 107–157) -/

/-- `ReceiptParsed` (app/schemas.py): the parser's result record.  The
`extra` dict is modelled by its two used keys. -/
structure ReceiptParsed where
  vendor : Option Chars
  vendor_confidence : ℚ
  vendor_reasoning : Chars
  vendor_source : Option Chars
  date : Option Chars
  date_confidence : ℚ
  date_reasoning : Chars
  total : Option ℚ
  total_confidence : ℚ
  total_reasoning : Chars
  tax : Option ℚ
  category : Option Chars
  category_confidence : ℚ
  category_reasoning : Chars
  explanation : Option Chars
  business_type : Option Chars
  business_state : Option Chars
  flags : List Chars
  needs_review : Bool
  extra_tax_confidence : Option ℚ
  extra_tax_reasoning : Option Chars
deriving DecidableEq

/-- `ReceiptParsed()` with the schema defaults. -/
def defaultParsed : ReceiptParsed :=
  { vendor := Option.none, vendor_confidence := 0, vendor_reasoning := []
    vendor_source := Option.none
    date := Option.none, date_confidence := 0, date_reasoning := []
    total := Option.none, total_confidence := 0, total_reasoning := []
    tax := Option.none
    category := Option.none, category_confidence := 0, category_reasoning := []
    explanation := Option.none, business_type := Option.none, business_state := Option.none
    flags := [], needs_review := false
    extra_tax_confidence := Option.none, extra_tax_reasoning := Option.none }

/-- The flag appended by the exception handler:
`f"PARSER_EXCEPTION_{type(e).__name__}".upper()`. -/
def parserExcFlag (excName : Chars) : Chars :=
  upperS ("PARSER_EXCEPTION_".data ++ excName)

/-- `parse_receipt(ocr_text)` (lines 107–157) as a function of its `try`
block.  The block mutates the fresh `ReceiptParsed()` as it goes; a Python
exception is modelled as `Except.error` carrying the exception's type name
and the partially mutated record at the moment of the raise, and the `ok`
case carries the fully extracted record.  `parse_receipt` returns the
record in both cases — it never propagates the exception: the handler
appends the parser-exception flag (after the `parsed.flags or []`
normalization) and forces `needs_review`. -/
def parseReceiptWith
    (body : ReceiptParsed → Except (Chars × ReceiptParsed) ReceiptParsed) :
    ReceiptParsed :=
  let parsed := defaultParsed
  match body parsed with
  | Except.ok p => p
  | Except.error (excName, partialP) =>
    let flags := if partialP.flags.isEmpty then [] else partialP.flags
    { partialP with flags := flags ++ [parserExcFlag excName], needs_review := true }

/-! ## Bridge theorems: the computable arithmetic agrees with ℚ's field ops -/

theorem qadd_eq (a b : ℚ) : qadd a b = a + b := by
  have ha : (a.den : ℚ) ≠ 0 := by exact_mod_cast a.den_nz
  have hb : (b.den : ℚ) ≠ 0 := by exact_mod_cast b.den_nz
  conv_rhs => rw [← Rat.num_div_den a, ← Rat.num_div_den b]
  unfold qadd
  rw [Rat.divInt_eq_div, div_add_div _ _ ha hb]
  push_cast
  ring_nf

theorem qsub_eq (a b : ℚ) : qsub a b = a - b := by
  have ha : (a.den : ℚ) ≠ 0 := by exact_mod_cast a.den_nz
  have hb : (b.den : ℚ) ≠ 0 := by exact_mod_cast b.den_nz
  conv_rhs => rw [← Rat.num_div_den a, ← Rat.num_div_den b]
  unfold qsub
  rw [Rat.divInt_eq_div, div_sub_div _ _ ha hb]
  push_cast
  ring_nf

theorem qmul_eq (a b : ℚ) : qmul a b = a * b := by
  have ha : (a.den : ℚ) ≠ 0 := by exact_mod_cast a.den_nz
  have hb : (b.den : ℚ) ≠ 0 := by exact_mod_cast b.den_nz
  conv_rhs => rw [← Rat.num_div_den a, ← Rat.num_div_den b]
  unfold qmul
  rw [Rat.divInt_eq_div, div_mul_div_comm]
  push_cast
  ring_nf

theorem qdiv_eq (a b : ℚ) : qdiv a b = a / b := by
  rcases eq_or_ne b 0 with rfl | hb0
  · simp [qdiv, Rat.divInt_eq_div]
  · have ha : (a.den : ℚ) ≠ 0 := by exact_mod_cast a.den_nz
    have hb : (b.den : ℚ) ≠ 0 := by exact_mod_cast b.den_nz
    have hbn : (b.num : ℚ) ≠ 0 := by simpa [Rat.num_eq_zero] using hb0
    conv_rhs => rw [← Rat.num_div_den a, ← Rat.num_div_den b]
    unfold qdiv
    rw [Rat.divInt_eq_div]
    push_cast
    field_simp

theorem qneg_eq (a : ℚ) : qneg a = -a := by
  have ha : (a.den : ℚ) ≠ 0 := by exact_mod_cast a.den_nz
  conv_rhs => rw [← Rat.num_div_den a]
  unfold qneg
  rw [Rat.divInt_eq_div]
  push_cast
  rw [neg_div]

theorem qabs_eq (a : ℚ) : qabs a = |a| := by
  unfold qabs
  rw [qneg_eq]
  split
  · rw [abs_of_neg (by assumption)]
  · rw [abs_of_nonneg (by linarith [not_lt.mp (by assumption)])]

theorem qmin_eq (a b : ℚ) : qmin a b = min a b := by
  rw [qmin, min_def]

theorem qmax_eq (a b : ℚ) : qmax a b = max a b := by
  rw [qmax, max_def]

theorem qc_eq (n : ℤ) : qc n = (n : ℚ) / 100 := by
  rw [qc, Rat.divInt_eq_div]
  norm_num

/-! ## C1 — the quality gate's returned boolean -/

/-- C1: for every record produced by `_compute_flags`, the returned
`needsReview` boolean equals "the returned flag list is non-empty",
regardless of which intermediate branches set or did not set the local
review marker (the `nr?` accumulator of `computeFlagsAux` is discarded and
the boolean is recomputed from the deduplicated flag list). -/
theorem computeFlags_needsReview_iff_flags (ocrStatus : Chars) (n : Normalized)
    (parsedFlags : Option (List Chars)) :
    (computeFlags ocrStatus n parsedFlags).2 = true ↔
      (computeFlags ocrStatus n parsedFlags).1 ≠ [] := by
  have h : (computeFlags ocrStatus n parsedFlags).2
      = decide (0 < (computeFlags ocrStatus n parsedFlags).1.length) := rfl
  rw [h, decide_eq_true_iff]
  exact ⟨List.ne_nil_of_length_pos, List.length_pos.mpr⟩

/-! ## C2 — `parse_receipt` never propagates an exception -/

/-- C2: `parse_receipt` returns a record on every outcome of its `try`
block: the extracted record when the block finishes, and — when the block
raises — the partially filled record with the explicit
`PARSER_EXCEPTION_<name>` flag appended and `needs_review` forced to
`true`, instead of the exception propagating. -/
theorem parseReceipt_absorbs_exceptions
    (body : ReceiptParsed → Except (Chars × ReceiptParsed) ReceiptParsed) :
    (∀ p, body defaultParsed = Except.ok p → parseReceiptWith body = p) ∧
    (∀ excName partialP, body defaultParsed = Except.error (excName, partialP) →
      (parseReceiptWith body).needs_review = true ∧
      parserExcFlag excName ∈ (parseReceiptWith body).flags) := by
  constructor
  · intro p h
    simp [parseReceiptWith, h]
  · intro excName partialP h
    refine ⟨?_, ?_⟩
    · simp [parseReceiptWith, h]
    · simp [parseReceiptWith, h]

/-- Witness for C2: a body that raises `ValueError` immediately yields a
flagged, review-forced record. -/
theorem parseReceipt_absorbs_exceptions_witness :
    (parseReceiptWith (fun p => Except.error ("ValueError".data, p))).needs_review = true ∧
    parserExcFlag "ValueError".data ∈
      (parseReceiptWith (fun p => Except.error ("ValueError".data, p))).flags :=
  (parseReceipt_absorbs_exceptions (fun p => Except.error ("ValueError".data, p))).2
    "ValueError".data defaultParsed rfl

/-! ## C9 — date pivot and silent discard of invalid dates -/

/-- C9: in `_normalize_date_match`, a sub-100 year is expanded with the 1968
pivot (≤ 68 → 2000s, otherwise 1900s) in both the numeric and the
month-name families, and a candidate that is not a valid calendar date
yields `None` (no candidate) rather than an error. -/
theorem normalizeDate_pivot_and_silent_discard :
    (∀ y mo d : ℕ, y < 100 →
      normalizeDateMatch DTag.mdySlash y mo d [] =
        (if validDate (if y ≤ 68 then 2000 + y else 1900 + y) mo d
         then Option.some (isoFmt (if y ≤ 68 then 2000 + y else 1900 + y) mo d)
         else Option.none)) ∧
    (∀ y d mon : ℕ, ∀ monRaw : Chars, y < 100 →
      monthsLookup ((stripDots (lowerS monRaw)).take 3) = Option.some mon →
      normalizeDateMatch DTag.monDY y 0 d monRaw =
        (if validDate (if y ≤ 68 then 2000 + y else 1900 + y) mon d
         then Option.some (isoFmt (if y ≤ 68 then 2000 + y else 1900 + y) mon d)
         else Option.none)) ∧
    (∀ y mo d : ℕ, validDate (expandYear y) mo d = false →
      normalizeDateMatch DTag.mdySlash y mo d [] = Option.none ∧
      normalizeDateMatch DTag.ymdDash y mo d [] = Option.none) := by
  refine ⟨?_, ?_, ?_⟩
  · intro y mo d hy
    simp [normalizeDateMatch, expandYear, hy]
  · intro y d mon monRaw hy hmon
    simp [normalizeDateMatch, expandYear, hy, hmon]
  · intro y mo d hv
    simp [normalizeDateMatch, hv]

/-- Witness for C9: `1/27/26` expands to 2026 and normalizes; month 13 is
silently discarded. -/
theorem normalizeDate_pivot_and_silent_discard_witness :
    normalizeDateMatch DTag.mdySlash 26 1 27 [] = Option.some "2026-01-27".data ∧
    normalizeDateMatch DTag.monDY 69 0 27 "Jan".data = Option.some "1969-01-27".data ∧
    normalizeDateMatch DTag.mdySlash 26 13 5 [] = Option.none := by
  refine ⟨?_, ?_, ?_⟩
  · rw [normalizeDate_pivot_and_silent_discard.1 26 1 27 (by decide)]
    decide
  · rw [normalizeDate_pivot_and_silent_discard.2.1 69 27 1 "Jan".data (by decide) (by decide)]
    decide
  · exact (normalizeDate_pivot_and_silent_discard.2.2 26 13 5 (by decide)).1

/-! ## C6 — the business-type hint and the rules cascade -/

/-- C6 (amended): the business-type hint lives inside the heuristic engine
only.  Whenever the hint lookup fires (`engineHint`), `suggest_category`
returns that hint's category with confidence 0.90, pre-empting the engine's
explanation/OCR/vendor keyword tiers. -/
theorem suggestCategory_hint_preempts_engine_tiers
    (vendor ocrText explanation businessType : Option Chars) (cat : Chars)
    (h : engineHint (catNorm businessType) (catNorm explanation) = Option.some cat) :
    suggestCategory vendor ocrText explanation businessType =
      { category := Option.some cat, confidence := qc 90,
        reasoning := "Matched business_type=\x27".data ++ (businessType.getD []) ++
          "\x27 hint in explanation".data } := by
  simp [suggestCategory, h]

/-- Witness for C6 (amended): a realtor explanation mentioning `listing`
makes the engine return Advertising & Marketing at 0.90. -/
theorem suggestCategory_hint_preempts_engine_tiers_witness :
    suggestCategory Option.none Option.none (Option.some "listing flyer".data)
        (Option.some "realtor".data) =
      { category := Option.some "Advertising & Marketing".data, confidence := qc 90,
        reasoning := "Matched business_type=\x27realtor\x27 hint in explanation".data } :=
  suggestCategory_hint_preempts_engine_tiers Option.none Option.none
    (Option.some "listing flyer".data) (Option.some "realtor".data)
    "Advertising & Marketing".data (by decide)

/-- Counterexample to C6 as stated: with vendor `Shell`, business type
`realtor`, and explanation `listing flyer`, the hint keywords are present
(`engineHint` fires with Advertising & Marketing), yet `categorize_purchase`
returns the vendor-table match `Fuel` at 0.95 from the rules tier — the
hint does not pre-empt the vendor-name table match. -/
theorem categorizePurchase_hint_not_preempting :
    engineHint (catNorm (Option.some "realtor".data))
        (catNorm (Option.some "listing flyer".data)) =
      Option.some "Advertising & Marketing".data ∧
    categorizePurchase (Option.some "Shell".data) Option.none
        (Option.some "listing flyer".data) (Option.some "realtor".data) =
      { category := Option.some "Fuel".data, confidence := qc 95,
        reasoning := "Vendor mapping matched: \x27Shell\x27 in \x27Shell\x27".data,
        source := "rules".data } ∧
    (categorizePurchase (Option.some "Shell".data) Option.none
        (Option.some "listing flyer".data) (Option.some "realtor".data)).confidence ≠
      qc 90 := by
  decide

/-! ## C4 — a 3-decimal numeral can still become a Tax value -/

/-- C4: the failing input.  On OCR text containing the 3-decimal numeral
`797.860`, the Tax extractor returns 797.86: the decimal money pattern of
`_money_candidates_from_text` has no trailing boundary, so it accepts the
`797.86` prefix of `797.860`, and the `Ref` token suppresses every
implied-cents candidate, leaving 797.86 as the line's last money value. -/
theorem extractTax_three_decimal_leak :
    extractTax ["Sales Tax Ref 797.860".data] "Sales Tax Ref 797.860".data
        [("full".data, ["Sales Tax Ref 797.860".data])] =
      (Option.some (qc 79786), 60,
        "Matched strong tax label; Source: (full) \x27Sales Tax Ref 797.860\x27".data) ∧
    (qc 79786 : ℚ) = (79786 : ℚ) / 100 := by
  constructor
  · decide
  · rw [qc_eq]
    norm_num

/-! ## C10 — the totals-only fix touches only the three total fields -/

/-- C10: `_fix_totals_only` leaves every normalized field other than
`total`, `total_confidence` and `total_reasoning` unchanged; an
already-present normalized total is never overwritten; and the confidence
and reasoning change only when they were missing (0 resp. empty). -/
theorem fixTotalsOnly_frame (p : ParsedView) (n : Normalized) :
    (fixTotalsOnly p n).vendor = n.vendor ∧
    (fixTotalsOnly p n).vendor_confidence = n.vendor_confidence ∧
    (fixTotalsOnly p n).vendor_reasoning = n.vendor_reasoning ∧
    (fixTotalsOnly p n).vendor_source = n.vendor_source ∧
    (fixTotalsOnly p n).date = n.date ∧
    (fixTotalsOnly p n).date_confidence = n.date_confidence ∧
    (fixTotalsOnly p n).date_reasoning = n.date_reasoning ∧
    (fixTotalsOnly p n).tax = n.tax ∧
    (fixTotalsOnly p n).category = n.category ∧
    (fixTotalsOnly p n).category_confidence = n.category_confidence ∧
    (fixTotalsOnly p n).category_reasoning = n.category_reasoning ∧
    (fixTotalsOnly p n).explanation = n.explanation ∧
    (fixTotalsOnly p n).business_type = n.business_type ∧
    (fixTotalsOnly p n).business_state = n.business_state ∧
    (fixTotalsOnly p n).flags = n.flags ∧
    (fixTotalsOnly p n).needs_review = n.needs_review ∧
    (∀ x, n.total = Option.some x → (fixTotalsOnly p n).total = Option.some x) ∧
    ((fixTotalsOnly p n).total_confidence ≠ n.total_confidence → n.total_confidence = 0) ∧
    ((fixTotalsOnly p n).total_reasoning ≠ n.total_reasoning → n.total_reasoning = []) := by
  unfold fixTotalsOnly fixTotalsStep1 fixTotalsStep2 fixTotalsStep3
  rcases n with ⟨v, vc, vr, vs, d, dc, dr, t, tc, tr, tax, cat, cc, cr, ex, bt, bs, fl, nr⟩
  cases t <;> cases fixTotalsGuardedTotal p <;> cases p.total_confidence <;>
    dsimp only <;> repeat' split
  all_goals simp_all

/-- Witness for C10: a record with a present total, nonzero confidence and
non-empty reasoning passes through the fix unchanged in every asserted way. -/
theorem fixTotalsOnly_frame_witness :
    ((fixTotalsOnly
      { total := PyVal.str "45.12".data, total_confidence := Option.some 95,
        total_reasoning := Option.some "r".data, total_line := Option.none, ocr_text := [] }
      { vendor := Option.some "V".data, vendor_confidence := 90, vendor_reasoning := "vr".data,
        vendor_source := Option.none, date := Option.some "2026-01-27".data,
        date_confidence := 80, date_reasoning := "dr".data, total := Option.some (qc 100),
        total_confidence := 50, total_reasoning := "tr".data, tax := Option.some (qc 5),
        category := Option.some "Meals".data, category_confidence := qc 95,
        category_reasoning := "cr".data, explanation := Option.none,
        business_type := Option.none, business_state := Option.none,
        flags := ["F".data], needs_review := true }).total = Option.some (qc 100)) ∧
    (50 : ℚ) ≠ 0 :=
  ⟨(fixTotalsOnly_frame
      { total := PyVal.str "45.12".data, total_confidence := Option.some 95,
        total_reasoning := Option.some "r".data, total_line := Option.none, ocr_text := [] }
      { vendor := Option.some "V".data, vendor_confidence := 90, vendor_reasoning := "vr".data,
        vendor_source := Option.none, date := Option.some "2026-01-27".data,
        date_confidence := 80, date_reasoning := "dr".data, total := Option.some (qc 100),
        total_confidence := 50, total_reasoning := "tr".data, tax := Option.some (qc 5),
        category := Option.some "Meals".data, category_confidence := qc 95,
        category_reasoning := "cr".data, explanation := Option.none,
        business_type := Option.none, business_state := Option.none,
        flags := ["F".data], needs_review := true }).2.2.2.2.2.2.2.2.2.2.2.2.2.2.2.2.1
    (qc 100) rfl, by norm_num⟩

/-! ## C3 — the tax inference fallback -/

/-- `isSubstr` agrees with list-infix. -/
theorem isSubstr_correct (n h : Chars) : isSubstr n h = true ↔ n <:+: h := by
  induction h with
  | nil =>
    simp [isSubstr, List.isEmpty_iff]
  | cons c t ih =>
    simp only [isSubstr, Bool.or_eq_true, ih, List.infix_cons_iff,
      List.isPrefixOf_iff_prefix]

/-- A middle factor is a substring of its concatenation. -/
theorem isSubstr_middle (a x b : Chars) : isSubstr x (a ++ x ++ b) = true := by
  rw [isSubstr_correct]
  exact ⟨a, b, by simp⟩
/-- C3: when pass A scored no explicit tax line but saw both a
subtotal-labeled and a total-labeled value, the inferred tax is
`round(total − subtotal, 2)`; it is returned exactly when that difference is
≥ 0 and at most 25% of the total, with confidence 70 plus 5 when both source
lines carry the `totals_pass` tag, and with reasoning citing both source
lines; otherwise no tax is returned. -/
theorem extractTax_inference_rule (lines : List Chars) (joined : Chars)
    (sections : List (Chars × List Chars)) (T S : ℚ) (totSrc subSrc : Chars)
    (hjoined : (stripS joined).isEmpty = false)
    (hbest : (taxScanResult lines sections).bestVal = Option.none)
    (htot : (taxScanResult lines sections).seenTotal = Option.some T)
    (hsub : (taxScanResult lines sections).seenSubtotal = Option.some S)
    (htsrc : (taxScanResult lines sections).seenTotalSrc = Option.some totSrc)
    (hssrc : (taxScanResult lines sections).seenSubtotalSrc = Option.some subSrc)
    (hT : 0 < T) :
    extractTax lines joined sections =
      (if 0 ≤ pyRound (T - S) 2 ∧ pyRound (T - S) 2 / T ≤ 1 / 4 then
        (Option.some (pyRound (T - S) 2),
         if isSubstr "totals_pass".data totSrc && isSubstr "totals_pass".data subSrc
           then (75 : ℚ) else 70,
         "Inferred tax = total - subtotal (".data ++ fmt2f T ++ " - ".data ++
           fmt2f S ++ "). Total from ".data ++ totSrc ++
           "; subtotal from ".data ++ subSrc)
       else (Option.none, 0, "No tax line detected.".data)) ∧
    (0 ≤ pyRound (T - S) 2 ∧ pyRound (T - S) 2 / T ≤ 1 / 4 →
      isSubstr totSrc (extractTax lines joined sections).2.2 = true ∧
      isSubstr subSrc (extractTax lines joined sections).2.2 = true) := by
  have hq : qsub T S = T - S := qsub_eq T S
  have hdiv : qdiv (pyRound (T - S) 2) T = pyRound (T - S) 2 / T := qdiv_eq _ _
  have hqc25 : qc 25 = 1 / 4 := by rw [qc_eq]; norm_num
  have hmain : extractTax lines joined sections =
      (if 0 ≤ pyRound (T - S) 2 ∧ pyRound (T - S) 2 / T ≤ 1 / 4 then
        (Option.some (pyRound (T - S) 2),
         if isSubstr "totals_pass".data totSrc && isSubstr "totals_pass".data subSrc
           then (75 : ℚ) else 70,
         "Inferred tax = total - subtotal (".data ++ fmt2f T ++ " - ".data ++
           fmt2f S ++ "). Total from ".data ++ totSrc ++
           "; subtotal from ".data ++ subSrc)
       else (Option.none, 0, "No tax line detected.".data)) := by
    have h75 : toConf100 (clamp01 (qadd (qc 70) (qc 5))) = 75 := by decide
    have h70 : toConf100 (clamp01 (qc 70)) = 70 := by decide
    simp only [extractTax, hjoined, Bool.false_eq_true, if_false, hbest]
    simp only [taxInference, htot, hsub, htsrc, hssrc, hq, hdiv, hqc25, hT,
      ge_iff_le, true_and, Bool.and_eq_true]
    split_ifs <;> try simp_all [h75, h70]
    all_goals rename_i hlt hconj _
    all_goals exact absurd hconj.2 (not_le.mpr hlt)
  refine ⟨hmain, fun hcond => ?_⟩
  rw [hmain, if_pos hcond]
  constructor
  · have := isSubstr_middle
      ("Inferred tax = total - subtotal (".data ++ fmt2f T ++ " - ".data ++
        fmt2f S ++ "). Total from ".data) totSrc ("; subtotal from ".data ++ subSrc)
    simpa using this
  · have := isSubstr_middle
      ("Inferred tax = total - subtotal (".data ++ fmt2f T ++ " - ".data ++
        fmt2f S ++ "). Total from ".data ++ totSrc ++ "; subtotal from ".data) subSrc []
    simpa using this

/-- Witness for C3: `"Subtotal 20.00"` and `"Total 21.50"` with no explicit
tax line yield inferred tax 1.50 at confidence 70, citing both lines. -/
theorem extractTax_inference_rule_witness :
    extractTax ["Subtotal 20.00".data, "Total 21.50".data]
        "Subtotal 20.00\nTotal 21.50".data
        [("full".data, ["Subtotal 20.00".data, "Total 21.50".data])] =
      (Option.some (qc 150), 70,
        ("Inferred tax = total - subtotal (21.50 - 20.00). Total from full: " ++
          "\x27Total 21.50\x27; subtotal from full: \x27Subtotal 20.00\x27").data) := by
  have hTS : (qc 2150 : ℚ) - 20 = qc 150 := by rw [← qsub_eq]; decide
  have hqc25 : qc 25 = 1 / 4 := by rw [qc_eq]; norm_num
  have h := (extractTax_inference_rule
    ["Subtotal 20.00".data, "Total 21.50".data]
    "Subtotal 20.00\nTotal 21.50".data
    [("full".data, ["Subtotal 20.00".data, "Total 21.50".data])]
    (qc 2150) 20
    "full: \x27Total 21.50\x27".data "full: \x27Subtotal 20.00\x27".data
    (by decide) (by decide) (by decide) (by decide) (by decide) (by decide)
    (by decide)).1
  rw [hTS] at h
  rw [h, if_pos]
  · decide
  · refine ⟨by decide, ?_⟩
    rw [← qdiv_eq, ← hqc25]
    decide

/-! ## C5 — bounds on the money-token extractor's candidates -/

/-- `qfloor` of an integer. -/
theorem qfloor_intCast (k : ℤ) : qfloor (k : ℚ) = k := by
  simp [qfloor]

/-- `roundHalfEven` is the identity on integers. -/
theorem roundHalfEven_intCast (k : ℤ) : roundHalfEven (k : ℚ) = k := by
  unfold roundHalfEven
  simp only [qfloor_intCast, qsub_eq, sub_self]
  have h : (0 : ℚ) < qc 50 := by rw [qc_eq]; norm_num
  rw [if_pos h]

/-- Python's 2-digit round is the identity on exact hundredths. -/
theorem pyRound_divInt100 (k : ℤ) : pyRound (Rat.divInt k 100) 2 = Rat.divInt k 100 := by
  unfold pyRound
  have hpow : ((10 : ℚ) ^ (2 : ℕ)) = 100 := by norm_num
  have harg : qmul (Rat.divInt k 100) ((10 : ℚ) ^ (2 : ℕ)) = (k : ℚ) := by
    rw [qmul_eq, hpow, Rat.divInt_eq_div]
    push_cast
    field_simp
  rw [harg, roundHalfEven_intCast]
  norm_num

/-- Any 2-digit rounding is an exact number of hundredths. -/
theorem pyRound2_shape (a : ℚ) : ∃ k : ℤ, pyRound a 2 = Rat.divInt k 100 := by
  refine ⟨roundHalfEven (qmul a ((10 : ℚ) ^ (2 : ℕ))), ?_⟩
  unfold pyRound
  norm_num

/-- 2-digit rounding is idempotent. -/
theorem pyRound2_idem (a : ℚ) : pyRound (pyRound a 2) 2 = pyRound a 2 := by
  obtain ⟨k, hk⟩ := pyRound2_shape a
  rw [hk, pyRound_divInt100]

/-- What `_add`'s acceptance means: the value was strictly positive and at
most 50000, and the stored value is its 2-digit rounding. -/
theorem addGuard_some {val : ℚ} {raw : Chars} {pos : ℕ} {c : MCand}
    (h : addGuard val raw pos = Option.some c) :
    0 < val ∧ val ≤ 50000 ∧ c.val = pyRound val 2 := by
  unfold addGuard at h
  split at h
  · exact absurd h (by simp)
  · rename_i hcond
    push_neg at hcond
    cases h
    exact ⟨hcond.1, hcond.2, rfl⟩

/-- Every payload of the decimal-pattern scanner carries an exact number of
hundredths. -/
theorem decMatchAt_val_shape {prev : Option Char} {s : Chars} {m : MPay} {L : ℕ}
    (h : decMatchAt prev s = Option.some (m, L)) :
    ∃ k : ℤ, m.val = Rat.divInt k 100 := by
  unfold decMatchAt at h
  repeat' first
    | split at h
    | dsimp only at h
  all_goals first
    | exact Option.noConfusion h
    | (injection h with hp
       injection hp with h1 h2
       exact ⟨_, by rw [← h1]⟩)

/-- Every payload of the euro-pattern scanner carries an exact number of
hundredths. -/
theorem euroMatchAt_val_shape {prev : Option Char} {s : Chars} {m : MPay} {L : ℕ}
    (h : euroMatchAt prev s = Option.some (m, L)) :
    ∃ k : ℤ, m.val = Rat.divInt k 100 := by
  unfold euroMatchAt at h
  repeat' first
    | split at h
    | dsimp only at h
  all_goals first
    | exact Option.noConfusion h
    | (injection h with hp
       injection hp with h1 h2
       exact ⟨_, by rw [← h1]⟩)

/-- Every `reFindIterAux` output payload was produced by some successful
`matchAt` call. -/
theorem reFindIterAux_mem {α : Type} (matchAt : Option Char → Chars → Option (α × ℕ)) :
    ∀ (fuel : ℕ) (prev : Option Char) (i : ℕ) (s : Chars) (x : α × ℕ),
    x ∈ reFindIterAux matchAt fuel prev i s →
    ∃ prev' s' L, matchAt prev' s' = Option.some (x.1, L) := by
  intro fuel
  induction fuel with
  | zero =>
    intro prev i s x h
    cases s <;> simp [reFindIterAux] at h
  | succ fuel ih =>
    intro prev i s x h
    cases s with
    | nil => simp [reFindIterAux] at h
    | cons c t =>
      rw [reFindIterAux] at h
      cases hm : matchAt prev (c :: t) with
      | none =>
        rw [hm] at h
        exact ih _ _ _ _ h
      | some ml =>
        obtain ⟨m, L⟩ := ml
        rw [hm] at h
        dsimp only at h
        by_cases hL : L ≤ 1
        · rw [if_pos hL] at h
          rcases List.mem_cons.mp h with rfl | hmem
          · exact ⟨prev, c :: t, L, hm⟩
          · exact ih _ _ _ _ hmem
        · rw [if_neg hL] at h
          rcases List.mem_cons.mp h with rfl | hmem
          · exact ⟨prev, c :: t, L, hm⟩
          · exact ih _ _ _ _ hmem

/-- Deduplication only drops elements. -/
theorem dedupByValPos_subset : ∀ (seen : List (ℚ × ℕ)) (l : List MCand) (c : MCand),
    c ∈ dedupByValPos seen l → c ∈ l := by
  intro seen l
  induction l generalizing seen with
  | nil => intro c h; simp [dedupByValPos] at h
  | cons a t ih =>
    intro c h
    rw [dedupByValPos] at h
    split at h
    · exact List.mem_cons_of_mem _ (ih _ _ h)
    · rcases List.mem_cons.mp h with rfl | hmem
      · exact List.mem_cons_self _ _
      · exact List.mem_cons_of_mem _ (ih _ _ hmem)

/-- Split the skip test of a pass's `filterMap` body. -/
theorem passBody_some {v : ℚ} {sk : Bool} {raw : Chars} {pos : ℕ} {c : MCand}
    (h : (if sk = true then Option.none else addGuard v raw pos) = Option.some c) :
    addGuard v raw pos = Option.some c := by
  cases sk with
  | false => simpa using h
  | true => simp at h

/-- Bounds for the guarded implied-cents pass. -/
theorem impliedPassCands_bounds {t : Chars} {c : MCand}
    (h : c ∈ impliedPassCands t) : 0 < c.val ∧ c.val ≤ 50000 := by
  unfold impliedPassCands at h
  dsimp only at h
  split at h
  · rcases List.mem_filterMap.mp h with ⟨⟨pb, run, na, st⟩, _, hf⟩
    dsimp only at hf
    repeat' first
      | split at hf
      | dsimp only at hf
    all_goals first
      | exact Option.noConfusion hf
      | (rcases addGuard_some hf with ⟨h1, h2, h3⟩
         rw [h3, pyRound_divInt100]
         exact ⟨h1, h2⟩)
  · simp at h

/-- C5 (amended): every candidate produced by any decoding pass of
`_money_candidates_from_text` has `0 < value ≤ 50000` — `_add` rejects
values ≤ 0 or strictly above 50000, so the boundary 50000 itself is
accepted; and the extractor itself never applies the integer-valued ≥ 10000
rejection (that check lives in `_coerce_money_float` in `app/main.py`). -/
theorem moneyCandidates_bounds (t : Chars) (c : MCand)
    (h : c ∈ moneyCandidatesFromText t) : 0 < c.val ∧ c.val ≤ 50000 := by
  unfold moneyCandidatesFromText at h
  split at h
  · simp at h
  · have h' := dedupByValPos_subset _ _ _ h
    rw [List.append_assoc, List.append_assoc] at h'
    rcases List.mem_append.mp h' with h1 | hrest
    · -- pass 1: explicit decimals
      rcases List.mem_filterMap.mp h1 with ⟨⟨m, pos⟩, hmem, hf⟩
      rcases reFindIterAux_mem _ _ _ _ _ _ hmem with ⟨prev', s', L, hmatch⟩
      dsimp only at hf
      rcases addGuard_some (passBody_some hf) with ⟨hp, hle, hval⟩
      rcases decMatchAt_val_shape hmatch with ⟨k, hk⟩
      dsimp only at hk
      rw [hval, hk, pyRound_divInt100, ← hk]
      exact ⟨hp, hle⟩
    · rcases List.mem_append.mp hrest with h2 | hrest2
      · -- pass 2: euro decimals
        rcases List.mem_filterMap.mp h2 with ⟨⟨m, pos⟩, hmem, hf⟩
        rcases reFindIterAux_mem _ _ _ _ _ _ hmem with ⟨prev', s', L, hmatch⟩
        dsimp only at hf
        rcases addGuard_some (passBody_some hf) with ⟨hp, hle, hval⟩
        rcases euroMatchAt_val_shape hmatch with ⟨k, hk⟩
        dsimp only at hk
        rw [hval, hk, pyRound_divInt100, ← hk]
        exact ⟨hp, hle⟩
      · rcases List.mem_append.mp hrest2 with h3 | h4
        · -- pass 3: truncated decimals, guarded on the pre-rounded value
          rcases List.mem_filterMap.mp h3 with ⟨⟨m, pos⟩, _, hf⟩
          dsimp only at hf
          rcases addGuard_some (passBody_some hf) with ⟨hp, hle, hval⟩
          rw [hval, pyRound2_idem]
          exact ⟨hp, hle⟩
        · -- pass 4: implied cents
          exact impliedPassCands_bounds h4

/-- Counterexample to C5 as stated: the extractor accepts the boundary value
50000 (the guard rejects only values strictly above 50000), and the decimal
pass returns the integer-valued amount 10000 ≥ 10000 — the integer-valued
≥ 10000 rejection is not part of any extractor pass. -/
theorem moneyCandidates_boundary_counterexample :
    moneyCandidatesFromText "50000.00".data =
      [{ val := 50000, raw := "50000.00".data, pos := 0 }] ∧
    ¬ ((50000 : ℚ) < 50000) ∧
    ({ val := 10000, raw := "10000.00".data, pos := 0 } : MCand) ∈
      moneyCandidatesFromText "10000.00".data ∧
    intValued (10000 : ℚ) = true ∧ (10000 : ℚ) ≥ 10000 := by
  refine ⟨by decide, by norm_num, by decide, by decide, by norm_num⟩

/-- Witness: the decimal pass accepts "20.00" at position 0 with value 20,
and the bounds theorem applies to it. -/
theorem moneyCandidates_bounds_witness :
    ({ val := 20, raw := "20.00".data, pos := 0 } : MCand) ∈
      moneyCandidatesFromText "20.00".data ∧
    (0 < ({ val := 20, raw := "20.00".data, pos := 0 } : MCand).val ∧
     ({ val := 20, raw := "20.00".data, pos := 0 } : MCand).val ≤ 50000) :=
  ⟨by decide, moneyCandidates_bounds ("20.00".data)
    { val := 20, raw := "20.00".data, pos := 0 } (by decide)⟩

/-! ## C7 — the shared total-scoring function and the winning candidate -/

/-- The scoring formula exactly as the specification words it: base score per
label strength, the six adjustments, clamped to [0,1].  The `< $1` and
`> $20,000` penalties are written as independent terms (they are mutually
exclusive, so this matches the code's `elif`). -/
def specTotalScore (taxValue : Option ℚ) (val : ℚ) (ctx : Chars) (hasLabel : Bool) : ℚ :=
  max 0 (min 1 (
    (if hasLabel then (0.90 : ℚ) else (0.55 : ℚ))
    - (if isBadContext ctx then (0.35 : ℚ) else 0)
    - (if isSubstr "tax".data (lowerS ctx) ∨ isSubstr "vat".data (lowerS ctx) then
         (0.30 : ℚ) else 0)
    - (if val < 1 then (0.25 : ℚ) else 0)
    - (if val > 20000 then (0.20 : ℚ) else 0)
    - (match taxValue with
       | Option.some tv => if qabs (qsub val tv) ≤ qc 2 then (0.35 : ℚ) else 0
       | Option.none => 0)
    + (if qabs (qsub (qmul val 100) ((roundHalfEven (qmul val 100) : ℤ) : ℚ)) <
         Rat.divInt 1 1000000 then (0.03 : ℚ) else 0)))

set_option maxHeartbeats 6400000 in
/-- The code's `_score` agrees with the specification's formula. -/
theorem scoreTotal_eq_spec (tv : Option ℚ) (v : ℚ) (ctx : Chars) (hl : Bool) :
    (scoreTotal tv v ctx hl).1 = specTotalScore tv v ctx hl := by
  unfold scoreTotal specTotalScore
  rcases tv with _ | t
  · cases hl <;>
    by_cases hb : isBadContext ctx = true <;>
    by_cases hx : (isSubstr "tax".data (lowerS ctx) = true ∨
                   isSubstr "vat".data (lowerS ctx) = true) <;>
    by_cases h1 : v < 1 <;>
    by_cases h2 : v > 20000 <;>
    by_cases hc : qabs (qsub (qmul v 100) ((roundHalfEven (qmul v 100) : ℤ) : ℚ)) <
        Rat.divInt 1 1000000 <;>
    first
      | (exfalso; linarith)
      | (simp only [hb, hx, h1, h2, hc, if_true, if_false, ite_true, ite_false,
           Bool.false_eq_true, not_false_eq_true]
         simp only [qadd_eq, qsub_eq, qc_eq, qmax_eq, qmin_eq]
         norm_num [min_def, max_def])
  · cases hl <;>
    by_cases hb : isBadContext ctx = true <;>
    by_cases hx : (isSubstr "tax".data (lowerS ctx) = true ∨
                   isSubstr "vat".data (lowerS ctx) = true) <;>
    by_cases h1 : v < 1 <;>
    by_cases h2 : v > 20000 <;>
    by_cases htv : qabs (qsub v t) ≤ qc 2 <;>
    by_cases hc : qabs (qsub (qmul v 100) ((roundHalfEven (qmul v 100) : ℤ) : ℚ)) <
        Rat.divInt 1 1000000 <;>
    first
      | (exfalso; linarith)
      | (simp only [hb, hx, h1, h2, htv, hc, if_true, if_false, ite_true, ite_false,
           Bool.false_eq_true, not_false_eq_true]
         simp only [qadd_eq, qsub_eq, qc_eq, qmax_eq, qmin_eq]
         norm_num [min_def, max_def])

/-- A rational that is an exact number of hundredths. -/
def isHundredths (a : ℚ) : Prop := ∃ k : ℤ, a = Rat.divInt k 100

theorem hund_qc (n : ℤ) : isHundredths (qc n) := ⟨n, rfl⟩

theorem hund_zero : isHundredths 0 := ⟨0, by norm_num [Rat.divInt_eq_div]⟩

theorem hund_one : isHundredths 1 := ⟨100, by norm_num [Rat.divInt_eq_div]⟩

theorem hund_add {a b : ℚ} (ha : isHundredths a) (hb : isHundredths b) :
    isHundredths (qadd a b) := by
  obtain ⟨j, rfl⟩ := ha
  obtain ⟨k, rfl⟩ := hb
  refine ⟨j + k, ?_⟩
  rw [qadd_eq, Rat.divInt_eq_div, Rat.divInt_eq_div, Rat.divInt_eq_div]
  push_cast
  ring

theorem hund_sub {a b : ℚ} (ha : isHundredths a) (hb : isHundredths b) :
    isHundredths (qsub a b) := by
  obtain ⟨j, rfl⟩ := ha
  obtain ⟨k, rfl⟩ := hb
  refine ⟨j - k, ?_⟩
  rw [qsub_eq, Rat.divInt_eq_div, Rat.divInt_eq_div, Rat.divInt_eq_div]
  push_cast
  ring

theorem hund_min {a b : ℚ} (ha : isHundredths a) (hb : isHundredths b) :
    isHundredths (qmin a b) := by
  unfold qmin
  split
  · exact ha
  · exact hb

theorem hund_max {a b : ℚ} (ha : isHundredths a) (hb : isHundredths b) :
    isHundredths (qmax a b) := by
  unfold qmax
  split
  · exact hb
  · exact ha

set_option maxHeartbeats 1600000 in
/-- Every score `_score` produces is an exact number of hundredths. -/
theorem scoreTotal_hund (tv : Option ℚ) (v : ℚ) (ctx : Chars) (hl : Bool) :
    isHundredths (scoreTotal tv v ctx hl).1 := by
  unfold scoreTotal
  repeat' first
    | split
    | dsimp only
  all_goals
    repeat' first
      | apply hund_max
      | apply hund_min
      | apply hund_add
      | apply hund_sub
      | exact hund_qc _
      | exact hund_zero
      | exact hund_one

/-- Multiplying hundredths by 100 and applying `round(·, 2)` is the identity. -/
theorem hund_conf {a : ℚ} (h : isHundredths a) :
    pyRound (qmul a 100) 2 = qmul a 100 := by
  obtain ⟨k, rfl⟩ := h
  have h1 : qmul (Rat.divInt k 100) 100 = (k : ℚ) := by
    rw [qmul_eq, Rat.divInt_eq_div]
    push_cast
    field_simp
  rw [h1]
  unfold pyRound
  have h2 : qmul (k : ℚ) ((10 : ℚ) ^ (2 : ℕ)) = ((100 * k : ℤ) : ℚ) := by
    rw [qmul_eq]
    push_cast
    ring
  rw [h2, roundHalfEven_intCast, Rat.divInt_eq_div]
  push_cast
  ring

/-- Scores of candidates produced by the strong-label pass. -/
theorem totalPass1_hund (tv : Option ℚ) :
    ∀ (ls : List Chars) (c : TCand), c ∈ (totalPass1 tv ls).1 → isHundredths c.score := by
  intro ls
  induction ls with
  | nil => intro c h; simp [totalPass1] at h
  | cons line rest ih =>
    intro c h
    rw [totalPass1] at h
    rcases hp : totalPass1 tv rest with ⟨cands, hits⟩
    rw [hp] at h
    dsimp only at h
    have ihc : ∀ c, c ∈ cands → isHundredths c.score := by
      intro c hc
      exact ih c (by rw [hp]; exact hc)
    split at h
    · split at h
      · dsimp only at h
        rcases List.mem_cons.mp h with rfl | hm
        · exact hund_min hund_one (hund_add (scoreTotal_hund _ _ _ _) (hund_qc _))
        · exact ihc _ hm
      · dsimp only at h
        rcases List.mem_append.mp h with hm | hm
        · rcases List.mem_map.mp hm with ⟨v, _, rfl⟩
          exact hund_min hund_one (hund_add (scoreTotal_hund _ _ _ _) (hund_qc _))
        · exact ihc _ hm
    · exact ihc _ h

/-- Scores of candidates produced by the weak-label pass. -/
theorem totalPass2_hund (tv : Option ℚ) :
    ∀ (ls : List Chars) (c : TCand), c ∈ (totalPass2 tv ls).1 → isHundredths c.score := by
  intro ls
  induction ls with
  | nil => intro c h; simp [totalPass2] at h
  | cons line rest ih =>
    intro c h
    rw [totalPass2] at h
    rcases hp : totalPass2 tv rest with ⟨cands, hits⟩
    rw [hp] at h
    dsimp only at h
    have ihc : ∀ c, c ∈ cands → isHundredths c.score := by
      intro c hc
      exact ih c (by rw [hp]; exact hc)
    split at h
    · dsimp only at h
      rcases List.mem_append.mp h with hm | hm
      · rcases List.mem_map.mp hm with ⟨v, _, rfl⟩
        exact hund_min hund_one (hund_add (scoreTotal_hund _ _ _ _) (hund_qc _))
      · exact ihc _ hm
    · exact ihc _ h

/-- Scores of candidates produced by the global fallback pass. -/
theorem totalPass3_hund (tv : Option ℚ) (ls : List Chars) (c : TCand)
    (h : c ∈ totalPass3 tv ls) : isHundredths c.score := by
  unfold totalPass3 at h
  rcases List.mem_flatMap.mp h with ⟨line, _, hm⟩
  split at hm
  · simp at hm
  · rcases List.mem_map.mp hm with ⟨v, _, rfl⟩
    exact scoreTotal_hund _ _ _ _

/-- Scores of candidates produced by the loosened fallback pass. -/
theorem totalPass3Loose_hund (tv : Option ℚ) (ls : List Chars) (c : TCand)
    (h : c ∈ totalPass3Loose tv ls) : isHundredths c.score := by
  unfold totalPass3Loose at h
  rcases List.mem_flatMap.mp h with ⟨line, _, hm⟩
  split at hm
  · simp at hm
  · rcases List.mem_map.mp hm with ⟨v, _, rfl⟩
    exact hund_max hund_zero (hund_sub (scoreTotal_hund _ _ _ _) (hund_qc _))

/-- The accumulator's score never decreases along the best-candidate fold. -/
theorem bestFoldl_le :
    ∀ (t : List TCand) (c : TCand),
      c.score ≤ (t.foldl (fun best x => if x.score > best.score then x else best) c).score := by
  intro t
  induction t with
  | nil => intro c; exact le_refl _
  | cons x t ih =>
    intro c
    dsimp only [List.foldl]
    refine le_trans ?_ (ih _)
    split
    · exact le_of_lt (by assumption)
    · exact le_refl _

/-- The best-candidate fold returns an element of the candidate list. -/
theorem bestFoldl_mem :
    ∀ (t : List TCand) (c : TCand),
      (t.foldl (fun best x => if x.score > best.score then x else best) c) ∈ c :: t := by
  intro t
  induction t with
  | nil => intro c; exact List.mem_cons_self _ _
  | cons x t ih =>
    intro c
    dsimp only [List.foldl]
    rcases List.mem_cons.mp (ih (if x.score > c.score then x else c)) with he | hm
    · rw [he]
      split
      · exact List.mem_cons_of_mem _ (List.mem_cons_self _ _)
      · exact List.mem_cons_self _ _
    · exact List.mem_cons_of_mem _ (List.mem_cons_of_mem _ hm)

/-- Every listed candidate scores at most the best-candidate fold's result. -/
theorem bestFoldl_max :
    ∀ (t : List TCand) (c z : TCand), z ∈ t →
      z.score ≤ (t.foldl (fun best x => if x.score > best.score then x else best) c).score := by
  intro t
  induction t with
  | nil => intro c z hz; simp at hz
  | cons x t ih =>
    intro c z hz
    dsimp only [List.foldl]
    rcases List.mem_cons.mp hz with rfl | hm
    · refine le_trans ?_ (bestFoldl_le t _)
      split
      · exact le_refl _
      · exact le_of_not_lt (by assumption)
    · exact ih _ z hm

/-- `max(candidates, key=lambda t: t[0])`: the winner is a member and scores
maximally. -/
theorem bestCand_spec (l : List TCand) (b : TCand) (h : bestCand l = Option.some b) :
    b ∈ l ∧ ∀ c ∈ l, c.score ≤ b.score := by
  cases l with
  | nil => cases h
  | cons c t =>
    rw [bestCand] at h
    injection h with h
    subst h
    refine ⟨bestFoldl_mem t c, ?_⟩
    intro z hz
    rcases List.mem_cons.mp hz with rfl | hm
    · exact bestFoldl_le t z
    · exact bestFoldl_max t c z hm

/-- What a successful pass return means. -/
theorem totalReturnBest_some {cands : List TCand} {v conf : ℚ} {r : Chars}
    (h : totalReturnBest cands = (Option.some v, conf, r)) :
    ∃ b, bestCand cands = Option.some b ∧ b ∈ cands ∧
      (∀ c ∈ cands, c.score ≤ b.score) ∧
      v = b.val ∧ conf = pyRound (qmul b.score 100) 2 ∧ r = b.reason := by
  unfold totalReturnBest at h
  cases hb : bestCand cands with
  | none => rw [hb] at h; exact absurd h (by simp)
  | some b =>
    rw [hb] at h
    obtain ⟨hmem, hmax⟩ := bestCand_spec _ _ hb
    injection h with h1 h23
    injection h23 with h2 h3
    injection h1 with h1
    exact ⟨b, rfl, hmem, hmax, h1.symm, h2.symm, h3.symm⟩

/-- Helper for C7: any successful total extraction is the best candidate of
one of the passes, with confidence exactly `score * 100`. -/
theorem extractTotal_winner (lines : List Chars) (joined : Chars)
    (sections : List (Chars × List Chars)) (tv : Option ℚ) (v conf : ℚ) (r : Chars)
    (h : extractTotal lines joined sections tv = (Option.some v, conf, r)) :
    ∃ cands b,
      (cands = (totalPass1 tv (totalAllLines lines joined sections)).1 ∨
       cands = (totalPass2 tv (totalAllLines lines joined sections)).1 ∨
       cands = totalPass3 tv (totalAllLines lines joined sections) ∨
       cands = totalPass3Loose tv (totalAllLines lines joined sections)) ∧
      bestCand cands = Option.some b ∧ b ∈ cands ∧
      (∀ c ∈ cands, c.score ≤ b.score) ∧
      v = b.val ∧ conf = qmul b.score 100 ∧ r = b.reason := by
  unfold extractTotal at h
  split at h
  · exact absurd h (by simp)
  · dsimp only at h
    rcases hp1 : totalPass1 tv (totalAllLines lines joined sections) with ⟨cands1, hits1⟩
    rw [hp1] at h
    dsimp only at h
    split at h
    · obtain ⟨b, hb, hmem, hmax, hv, hc, hr⟩ := totalReturnBest_some h
      have hh : isHundredths b.score :=
        totalPass1_hund tv (totalAllLines lines joined sections) b (by rw [hp1]; exact hmem)
      exact ⟨cands1, b, Or.inl rfl, hb, hmem, hmax, hv,
        by rw [hc, hund_conf hh], hr⟩
    · rcases hp2 : totalPass2 tv (totalAllLines lines joined sections) with ⟨cands2, hits2⟩
      rw [hp2] at h
      dsimp only at h
      split at h
      · obtain ⟨b, hb, hmem, hmax, hv, hc, hr⟩ := totalReturnBest_some h
        have hh : isHundredths b.score :=
          totalPass2_hund tv (totalAllLines lines joined sections) b (by rw [hp2]; exact hmem)
        exact ⟨cands2, b, Or.inr (Or.inl rfl), hb, hmem, hmax, hv,
          by rw [hc, hund_conf hh], hr⟩
      · split at h
        · obtain ⟨b, hb, hmem, hmax, hv, hc, hr⟩ := totalReturnBest_some h
          have hh : isHundredths b.score := totalPass3Loose_hund tv _ b hmem
          exact ⟨_, b, Or.inr (Or.inr (Or.inr rfl)), hb, hmem, hmax, hv,
            by rw [hc, hund_conf hh], hr⟩
        · obtain ⟨b, hb, hmem, hmax, hv, hc, hr⟩ := totalReturnBest_some h
          have hh : isHundredths b.score := totalPass3_hund tv _ b hmem
          exact ⟨_, b, Or.inr (Or.inr (Or.inl rfl)), hb, hmem, hmax, hv,
            by rw [hc, hund_conf hh], hr⟩

/-- C7: the Total extractor's shared scoring function assigns base 0.90 to
labeled and 0.55 to unlabeled candidates, then applies exactly −0.35 for
bad-context keywords, −0.30 for tax/VAT mentions, −0.25 below $1, −0.20 above
$20,000, −0.35 when within 2 cents of the extracted tax value, +0.03 for
cents-precise values, clamped to [0,1] (`specTotalScore` states this formula
verbatim); and whenever extraction succeeds, the returned value is the
highest-scoring candidate of whichever pass produced results, with confidence
reported as score × 100. -/
theorem extractTotal_scoring_and_winner :
    (∀ (tv : Option ℚ) (v : ℚ) (ctx : Chars) (hl : Bool),
        (scoreTotal tv v ctx hl).1 = specTotalScore tv v ctx hl) ∧
    (∀ (lines : List Chars) (joined : Chars) (sections : List (Chars × List Chars))
        (tv : Option ℚ) (v conf : ℚ) (r : Chars),
        extractTotal lines joined sections tv = (Option.some v, conf, r) →
        ∃ cands b,
          (cands = (totalPass1 tv (totalAllLines lines joined sections)).1 ∨
           cands = (totalPass2 tv (totalAllLines lines joined sections)).1 ∨
           cands = totalPass3 tv (totalAllLines lines joined sections) ∨
           cands = totalPass3Loose tv (totalAllLines lines joined sections)) ∧
          bestCand cands = Option.some b ∧ b ∈ cands ∧
          (∀ c ∈ cands, c.score ≤ b.score) ∧
          v = b.val ∧ conf = qmul b.score 100 ∧ r = b.reason) :=
  ⟨scoreTotal_eq_spec, extractTotal_winner⟩

/-- Witness for C7 on the receipt line "Total 20.00": extraction returns
value 20 at confidence 96, and the theorem's two parts apply. -/
theorem extractTotal_scoring_and_winner_witness :
    ((scoreTotal Option.none 20 "Total 20.00".data true).1 =
       specTotalScore Option.none 20 "Total 20.00".data true) ∧
    (∃ cands b,
      (cands = (totalPass1 Option.none (totalAllLines ["Total 20.00".data] [] [])).1 ∨
       cands = (totalPass2 Option.none (totalAllLines ["Total 20.00".data] [] [])).1 ∨
       cands = totalPass3 Option.none (totalAllLines ["Total 20.00".data] [] []) ∨
       cands = totalPass3Loose Option.none (totalAllLines ["Total 20.00".data] [] [])) ∧
      bestCand cands = Option.some b ∧ b ∈ cands ∧
      (∀ c ∈ cands, c.score ≤ b.score) ∧
      (20 : ℚ) = b.val ∧ (96 : ℚ) = qmul b.score 100 ∧
      "Labeled total window ; Bump: currency-like precision ; Weak label match. Source: \x27Total 20.00\x27".data = b.reason) :=
  ⟨extractTotal_scoring_and_winner.1 Option.none 20 "Total 20.00".data true,
   extractTotal_scoring_and_winner.2 ["Total 20.00".data] [] [] Option.none 20 96
     "Labeled total window ; Bump: currency-like precision ; Weak label match. Source: \x27Total 20.00\x27".data (by decide)⟩

/-! ## C8 — vendor alias-match confidence and early exit -/

/-- The alias-hit confidence exactly as the specification words it: base 0.84,
+0.10 / +0.06 / +0.04 according to the section that matched, +0.03 when the
canonical name itself appears verbatim in the searched text, capped at 1.0. -/
def specVendorHitScore (spaceName hay canon : Chars) : ℚ :=
  min 1 ((0.84 : ℚ)
    + (if spaceName = "vendor_pass".data then (0.10 : ℚ)
       else if spaceName = "softtext_pass".data then (0.06 : ℚ)
       else if spaceName = "top_full".data then (0.04 : ℚ)
       else 0)
    + (if isSubstr (lowerS canon) hay then (0.03 : ℚ) else 0))

/-- The code's per-hit score agrees with the specification's formula. -/
theorem vendorHitScore_eq_spec (spaceName hay canon : Chars) :
    vendorHitScore spaceName hay canon = specVendorHitScore spaceName hay canon := by
  have nvs : ¬ (("vendor_pass".data : Chars) = "softtext_pass".data) := by decide
  have nvt : ¬ (("vendor_pass".data : Chars) = "top_full".data) := by decide
  have nsv : ¬ (("softtext_pass".data : Chars) = "vendor_pass".data) := by decide
  have nst : ¬ (("softtext_pass".data : Chars) = "top_full".data) := by decide
  have ntv : ¬ (("top_full".data : Chars) = "vendor_pass".data) := by decide
  have nts : ¬ (("top_full".data : Chars) = "softtext_pass".data) := by decide
  unfold vendorHitScore specVendorHitScore
  by_cases h1 : spaceName = "vendor_pass".data <;>
  by_cases h2 : spaceName = "softtext_pass".data <;>
  by_cases h3 : spaceName = "top_full".data <;>
  by_cases h4 : isSubstr (lowerS canon) hay = true <;>
  first
    | exact absurd (h1.symm.trans h2) nvs
    | exact absurd (h1.symm.trans h3) nvt
    | exact absurd (h2.symm.trans h3) nst
    | (simp only [h1, h2, h3, h4, nvs, nvt, nsv, nst, ntv, nts, eq_self_iff_true,
         if_true, if_false, ite_true, ite_false, Bool.false_eq_true, not_false_eq_true]
       simp only [clamp01, qadd_eq, qc_eq]
       norm_num [min_def])

/-- Foldl preserves an invariant that every step preserves. -/
theorem foldl_inv {α β : Type} (P : β → Prop) (f : β → α → β) :
    ∀ (l : List α) (b : β), P b → (∀ b a, a ∈ l → P b → P (f b a)) → P (l.foldl f b) := by
  intro l
  induction l with
  | nil => intro b hb _; exact hb
  | cons x t ih =>
    intro b hb hstep
    dsimp only [List.foldl]
    exact ih _ (hstep b x (List.mem_cons_self _ _) hb)
      (fun b a ha hb => hstep b a (List.mem_cons_of_mem _ ha) hb)

/-- Provenance invariant for the vendor scan: whenever a best record carries a
vendor and a source, its score is the hit score of one of the given search
spaces and the source names that space. -/
def VGood (spaces : List (Chars × Chars)) (b : VBest) : Prop :=
  ∀ canon src, b.vendor = Option.some canon → b.src = Option.some src →
    ∃ name hay, (name, hay) ∈ spaces ∧ src = "alias_match:".data ++ name ∧
      b.score = vendorHitScore name hay canon

/-- One space's alias double loop preserves the provenance invariant. -/
theorem vendorSpaceScan_good (spaces : List (Chars × Chars)) (name hay : Chars)
    (hmem : (name, hay) ∈ spaces) (b : VBest) (hb : VGood spaces b) :
    VGood spaces (vendorSpaceScan b name hay) := by
  unfold vendorSpaceScan
  apply foldl_inv _ _ _ _ hb
  intro b' ca _ hb'
  rcases ca with ⟨canon, aliases⟩
  dsimp only
  apply foldl_inv _ _ _ _ hb'
  intro b'' a _ hb''
  dsimp only
  split
  · exact hb''
  · split
    · split
      · intro canon' src' h1 h2
        dsimp only at h1 h2
        injection h1 with h1
        injection h2 with h2
        refine ⟨name, hay, hmem, h2.symm, ?_⟩
        dsimp only
        rw [h1]
      · exact hb''
    · exact hb''

/-- The search-space loop preserves the provenance invariant. -/
theorem vendorSpacesLoop_good (allSpaces : List (Chars × Chars)) :
    ∀ (spaces : List (Chars × Chars)) (b : VBest),
      (∀ x, x ∈ spaces → x ∈ allSpaces) → VGood allSpaces b →
      VGood allSpaces (vendorSpacesLoop b spaces) := by
  intro spaces
  induction spaces with
  | nil => intro b _ hb; exact hb
  | cons nh rest ih =>
    rcases nh with ⟨name, hay⟩
    intro b hsub hb
    rw [vendorSpacesLoop]
    dsimp only
    by_cases he : hay.isEmpty = true
    · rw [if_pos he]
      split
      · exact hb
      · exact ih _ (fun x hx => hsub x (List.mem_cons_of_mem _ hx)) hb
    · rw [if_neg he]
      have hb' := vendorSpaceScan_good allSpaces name hay (hsub _ (List.mem_cons_self _ _)) b hb
      split
      · exact hb'
      · exact ih _ (fun x hx => hsub x (List.mem_cons_of_mem _ hx)) hb'

/-- Helper for C8: a successful alias stage reports the hit score of the
section that produced the match. -/
theorem extractVendorAlias_conf (lines : List Chars) (sections : List (Chars × List Chars))
    (canon : Chars) (conf : ℚ) (r src : Chars)
    (h : extractVendorAlias lines sections = Option.some (canon, conf, r, src)) :
    ∃ name hay, (name, hay) ∈ vendorSearchSpaces lines sections ∧
      src = "alias_match:".data ++ name ∧
      conf = toConf100 (vendorHitScore name hay canon) := by
  unfold extractVendorAlias at h
  split at h
  · exact Option.noConfusion h
  · dsimp only at h
    generalize hB : vendorSpacesLoop
      { vendor := Option.none, score := 0, aliasName := Option.none, src := Option.none }
      (vendorSearchSpaces lines sections) = B at h
    have hg : VGood (vendorSearchSpaces lines sections) B := by
      rw [← hB]
      exact vendorSpacesLoop_good _ _ _ (fun x hx => hx)
        (fun c s h1 _ => Option.noConfusion h1)
    rcases hv : B.vendor with _ | bc
    · rw [hv] at h
      dsimp only at h
      exact Option.noConfusion h
    · rw [hv] at h
      rcases ha : B.aliasName with _ | ba
      · rw [ha] at h
        dsimp only at h
        exact Option.noConfusion h
      · rw [ha] at h
        rcases hs : B.src with _ | bs
        · rw [hs] at h
          dsimp only at h
          exact Option.noConfusion h
        · rw [hs] at h
          dsimp only at h
          injection h with h1
          injection h1 with e1 h2
          injection h2 with e2 h3
          injection h3 with e3 e4
          obtain ⟨name, hay, hmem, hsrceq, hscore⟩ := hg bc bs hv hs
          refine ⟨name, hay, hmem, ?_, ?_⟩
          · rw [← e4, hsrceq]
          · rw [← e2, hscore, e1]

/-- Helper for C8: once the best record after a space satisfies the ≥ 0.92
high-trust condition, the loop's result does not depend on the remaining
spaces. -/
theorem vendorSpacesLoop_early (b : VBest) (name hay : Chars)
    (rest rest' : List (Chars × Chars))
    (h : (if hay.isEmpty then b else vendorSpaceScan b name hay).vendor.isSome = true ∧
         (if hay.isEmpty then b else vendorSpaceScan b name hay).score ≥ qc 92 ∧
         (name = "vendor_pass".data ∨ name = "softtext_pass".data)) :
    vendorSpacesLoop b ((name, hay) :: rest) = vendorSpacesLoop b ((name, hay) :: rest') := by
  rw [vendorSpacesLoop, vendorSpacesLoop]
  dsimp only
  rw [if_pos h, if_pos h]

/-- C8: every vendor alias match scores 0.84 base plus exactly +0.10 / +0.06 /
+0.04 for a hit in `vendor_pass` / `softtext_pass` / the top-of-full section,
plus +0.03 when the canonical vendor name appears verbatim in the searched
text, capped at 1.0 (`specVendorHitScore` states this formula verbatim); the
alias stage's returned confidence is always the hit score of the section that
produced the match; and the section loop exits early — its result is
independent of the remaining sections — once a scan leaves a best match
scoring ≥ 0.92 in a high-trust (`vendor_pass` or `softtext_pass`) section. -/
theorem extractVendorAlias_confidence_and_early_exit :
    (∀ (spaceName hay canon : Chars),
        vendorHitScore spaceName hay canon = specVendorHitScore spaceName hay canon) ∧
    (∀ (lines : List Chars) (sections : List (Chars × List Chars))
        (canon : Chars) (conf : ℚ) (r src : Chars),
        extractVendorAlias lines sections = Option.some (canon, conf, r, src) →
        ∃ name hay, (name, hay) ∈ vendorSearchSpaces lines sections ∧
          src = "alias_match:".data ++ name ∧
          conf = toConf100 (vendorHitScore name hay canon)) ∧
    (∀ (b : VBest) (name hay : Chars) (rest rest' : List (Chars × Chars)),
        ((if hay.isEmpty then b else vendorSpaceScan b name hay).vendor.isSome = true ∧
         (if hay.isEmpty then b else vendorSpaceScan b name hay).score ≥ qc 92 ∧
         (name = "vendor_pass".data ∨ name = "softtext_pass".data)) →
        vendorSpacesLoop b ((name, hay) :: rest) =
          vendorSpacesLoop b ((name, hay) :: rest')) :=
  ⟨vendorHitScore_eq_spec, extractVendorAlias_conf, vendorSpacesLoop_early⟩

/-- Witness for C8: on the single line "Starbucks" the alias stage returns
Starbucks with confidence 91 from the top-of-full section, and a 0.97-scoring
`vendor_pass` scan of "starbucks" triggers the early exit. -/
theorem extractVendorAlias_confidence_and_early_exit_witness :
    (vendorHitScore "top_full".data "starbucks".data "Starbucks".data =
       specVendorHitScore "top_full".data "starbucks".data "Starbucks".data) ∧
    (∃ name hay, (name, hay) ∈ vendorSearchSpaces ["Starbucks".data] [] ∧
       "alias_match:top_full".data = "alias_match:".data ++ name ∧
       (91 : ℚ) = toConf100 (vendorHitScore name hay "Starbucks".data)) ∧
    (vendorSpacesLoop
        { vendor := Option.none, score := 0, aliasName := Option.none, src := Option.none }
        (("vendor_pass".data, "starbucks".data) :: [("full".data, "x".data)]) =
     vendorSpacesLoop
        { vendor := Option.none, score := 0, aliasName := Option.none, src := Option.none }
        (("vendor_pass".data, "starbucks".data) :: [])) :=
  ⟨extractVendorAlias_confidence_and_early_exit.1 "top_full".data "starbucks".data
     "Starbucks".data,
   extractVendorAlias_confidence_and_early_exit.2.1 ["Starbucks".data] [] "Starbucks".data
     91 "Matched vendor alias \x27starbucks\x27 in alias_match:top_full.".data
     "alias_match:top_full".data (by decide),
   extractVendorAlias_confidence_and_early_exit.2.2
     { vendor := Option.none, score := 0, aliasName := Option.none, src := Option.none }
     "vendor_pass".data "starbucks".data [("full".data, "x".data)] [] (by decide)⟩
